import Mathlib

set_option maxHeartbeats 1000000

/-!
Shallow embedding of `citiengov_export_gml.py`: the `CitiEnGov` source-document
accessor (fragment grouping by UUID and single-pass building iteration), the
`Building` record with its `find` / `find(_all=True)` queries, and the two
translators `Inspire` and `CityGML` (their per-building mapping logic, code-list
dictionaries, current-use splitting, date formatting and the CityGML energy
demand time-series construction).

Python runtime failures are modelled by the `PyErr` type: `attributeError`
stands for `.text` / `.lower()` / `.split()` on `None`, `keyError` for a
dictionary (code-list) lookup miss, `indexError` for indexing an empty list,
`valueError` / `typeError` for `int()` conversion failures, and the two raise
sites inside `make_demand` (both `UnboundLocalError` in the source, with
different messages) are modelled as the distinct constructors
`energyCarrierMismatch` and `nonContiguousYears`.
-/

/-- Outcome of a Python runtime failure; constructors are keyed to raise sites
in the source (see module docstring). -/
inductive PyErr where
  | attributeError
  | keyError
  | indexError
  | valueError
  | typeError
  | energyCarrierMismatch
  | nonContiguousYears
  deriving DecidableEq, Repr

/-- An XML element as the translators see it: its attribute dictionary and its
(optional) text. `text = none` models ElementTree's `element.text is None`. -/
instance {ε α} [DecidableEq ε] [DecidableEq α] : DecidableEq (Except ε α) :=
  fun x y =>
    match x, y with
    | Except.ok a, Except.ok b =>
      if h : a = b then isTrue (by rw [h])
      else isFalse (by intro he; cases he; exact h rfl)
    | Except.error e, Except.error f =>
      if h : e = f then isTrue (by rw [h])
      else isFalse (by intro he; cases he; exact h rfl)
    | Except.ok _, Except.error _ => isFalse (by intro he; cases he)
    | Except.error _, Except.ok _ => isFalse (by intro he; cases he)

structure XmlLeaf where
  attrib : List (String × String)
  text : Option String
  deriving DecidableEq, Repr

/-- One `gml:featureMember` fragment. Each named attribute path below
`GML_BUILDINGS_CEG` (such as `UUID`, `LIFESPAN_BEGINNING`, or the full geometry
path) occurs at most once per fragment and is modelled as an entry of `attrs`
keyed by the string the Python code passes to `Building.find`. -/
structure Fragment where
  attrs : List (String × XmlLeaf)
  deriving DecidableEq, Repr

/-- `fragment.find('./CitiEnGov_01_1:GML_BUILDINGS_CEG/CitiEnGov_01_1:<attr>')`:
the element at the fixed attribute path, or `none` when absent. -/
def attrFind (f : Fragment) (attr : String) : Option XmlLeaf :=
  (f.attrs.find? (fun p => p.1 == attr)).map (fun p => p.2)

/-- Lift `Option` to `Except`, recording which Python error a `None` would
raise at this use site. -/
def ofOpt (e : PyErr) : Option α → Except PyErr α
  | some a => Except.ok a
  | none => Except.error e

/-- `str(x)` as applied by `'{y}'.format(y=x)` to an optional text: Python
renders `None` as the string `"None"` rather than failing. -/
def pyStr : Option String → String
  | some s => s
  | none => "None"

/-- `s.lower()` (the source only ever lowercases ASCII vocabulary terms). -/
def pyLower (s : String) : String :=
  String.mk (s.data.map Char.toLower)

/-- `element.text.lower()`: `AttributeError` when the text is `None`. -/
def pyLowerOpt : Option String → Except PyErr String
  | some s => Except.ok (pyLower s)
  | none => Except.error PyErr.attributeError

/-- Proof-friendly `mapM` over `Except`, stopping at the first error (the
evaluation order of a Python comprehension or loop). -/
def mapME (f : α → Except PyErr β) : List α → Except PyErr (List β)
  | [] => Except.ok []
  | a :: as =>
    match f a with
    | Except.error e => Except.error e
    | Except.ok b =>
      match mapME f as with
      | Except.error e => Except.error e
      | Except.ok bs => Except.ok (b :: bs)

/-- Run a sequence of output-emitting steps in order, concatenating what they
emit and stopping at the first Python error. -/
def catE : List (Except PyErr (List α)) → Except PyErr (List α)
  | [] => Except.ok []
  | x :: xs =>
    match x with
    | Except.error e => Except.error e
    | Except.ok l =>
      match catE xs with
      | Except.error e => Except.error e
      | Except.ok ls => Except.ok (l ++ ls)

/-- The `Building` class: a unique identifier together with all feature-member
fragments sharing it. -/
structure Building where
  UUID : Option String
  feature_list : List Fragment
  deriving DecidableEq, Repr

/-- `Building.find(attribute)`: the first fragment's non-`None` element at the
fixed attribute path, in fragment order; `none` when no fragment has it. -/
def Building.find (bu : Building) (attrName : String) : Option XmlLeaf :=
  bu.feature_list.findSome? (fun f => attrFind f attrName)

/-- `Building.find(attribute, _all=True)`: all non-`None` elements at the fixed
attribute path, in fragment order (sparse: fragments without the attribute are
skipped entirely). -/
def Building.findAll (bu : Building) (attrName : String) : List XmlLeaf :=
  bu.feature_list.filterMap (fun f => attrFind f attrName)

/-- The `CitiEnGov` source-document state after a successful `__init__`: the
feature members and the deduplicated identifier list. The iteration cursor
`UUID_index` is modelled by `iterate` below. -/
structure CitiEnGov where
  feature_members : List Fragment
  building_UUIDs : List (Option String)
  deriving DecidableEq, Repr

/-- Line 53-55 of the source: `[uuid.text for uuid in
root.iterfind('./gml:featureMember/...GML_BUILDINGS_CEG/...UUID')]`.
`iterfind` yields only elements that exist, so a fragment lacking the UUID
path contributes nothing (it is skipped, not an error). -/
def extractUUIDs (doc : List Fragment) : List (Option String) :=
  doc.filterMap (fun f => (attrFind f "UUID").map (fun leaf => leaf.text))

/-- The filtering comprehension of `get_building` (lines 63-65):
`[f for f in feature_members if f.find(...UUID).text == uuid]`. Evaluated left
to right; a fragment lacking the UUID element raises `AttributeError`
(`None.text`). -/
def getFeatures (fms : List Fragment) (uuid : Option String) :
    Except PyErr (List Fragment) :=
  match fms with
  | [] => Except.ok []
  | f :: rest =>
    match attrFind f "UUID" with
    | none => Except.error PyErr.attributeError
    | some leaf =>
      match getFeatures rest uuid with
      | Except.error e => Except.error e
      | Except.ok tail =>
        Except.ok (if leaf.text = uuid then f :: tail else tail)

/-- `CitiEnGov.get_building(uuid)` (lines 62-66). -/
def getBuilding (fms : List Fragment) (uuid : Option String) :
    Except PyErr Building :=
  match getFeatures fms uuid with
  | Except.error e => Except.error e
  | Except.ok fl => Except.ok { UUID := uuid, feature_list := fl }

/-- `CitiEnGov.__init__` after parsing (lines 49-60): collect feature members,
extract and deduplicate the identifiers (`list(set(...))`; the Python set
iteration order is unspecified, modelled here by `List.dedup`), then index the
first identifier (`IndexError` when there is none) and build its `Building`. -/
def citiEnGovInit (doc : List Fragment) : Except PyErr CitiEnGov :=
  let feature_members := doc
  let building_UUIDs := (extractUUIDs doc).dedup
  match building_UUIDs.head? with
  | none => Except.error PyErr.indexError
  | some uuid0 =>
    match getBuilding feature_members uuid0 with
    | Except.error e => Except.error e
    | Except.ok _building0 =>
      Except.ok { feature_members := feature_members,
                  building_UUIDs := building_UUIDs }

/-- The `__iter__` / `__next__` protocol (lines 69-80): the cursor starts at
index 0 and each `__next__` yields `get_building(building_UUIDs[i])` until the
index runs off the end (`StopIteration`). The full traversal is the
left-to-right mapping of `get_building` over `building_UUIDs`. -/
def iterate (c : CitiEnGov) : Except PyErr (List Building) :=
  mapME (getBuilding c.feature_members) c.building_UUIDs

/-! ### Python string primitives used by the translators -/

/-- Python string `<`: lexicographic comparison of the code-point sequences,
with a proper prefix comparing smaller. -/
def pyLtChars : List Char → List Char → Bool
  | [], [] => false
  | [], _ :: _ => true
  | _ :: _, [] => false
  | c :: cs, d :: ds =>
    if c < d then true
    else if d < c then false
    else pyLtChars cs ds

/-- The `key <= key` preorder Python's ascending, stable `sorted()` realises
(an element is inserted before the first element it is not greater than). -/
def pyStrLe (s t : String) : Prop :=
  pyLtChars t.data s.data = false

instance : DecidableRel pyStrLe :=
  fun s t => inferInstanceAs (Decidable (pyLtChars t.data s.data = false))

/-- `sorted(strings)`. -/
def pySorted (l : List String) : List String :=
  l.insertionSort pyStrLe

/-- Numeric value of a decimal digit string (most significant digit first). -/
def charsVal : List Char → Nat
  | [] => 0
  | c :: cs => (c.toNat - 48) * 10 ^ cs.length + charsVal cs

/-- Numeric value of a decimal digit `String`. -/
def charsValStr (s : String) : Nat :=
  charsVal s.data

/-- Python `int(s)` restricted to the shapes the source data uses: an optional
minus sign followed by decimal digits; anything else is a `ValueError`.
(Full `int()` also accepts surrounding whitespace and a plus sign.) -/
def pyInt (s : String) : Except PyErr Int :=
  match s.data with
  | [] => Except.error PyErr.valueError
  | '-' :: rest =>
    if rest ≠ [] ∧ rest.all Char.isDigit then
      Except.ok (-(charsVal rest : Int))
    else Except.error PyErr.valueError
  | l =>
    if l.all Char.isDigit then Except.ok ((charsVal l : Int))
    else Except.error PyErr.valueError

/-- `s.split(sep)` for a one-character separator: splits at every occurrence,
keeping empty segments (`''.split(',') == ['']`). -/
def splitChars (sep : Char) : List Char → List (List Char)
  | [] => [[]]
  | x :: xs =>
    if x = sep then [] :: splitChars sep xs
    else
      match splitChars sep xs with
      | [] => [[x]]
      | seg :: segs => (x :: seg) :: segs

/-- `s.split(sep)` on `String`s. -/
def pySplit (sep : Char) (s : String) : List String :=
  (splitChars sep s.data).map String.mk

/-- `s.partition(sep)` for a one-character separator, reduced to the pair the
source uses (text before the first separator, text after it); when the
separator does not occur the result is `(s, '')`. -/
def partitionChars (sep : Char) : List Char → List Char × List Char
  | [] => ([], [])
  | x :: xs =>
    if x = sep then ([], xs)
    else
      let p := partitionChars sep xs
      (x :: p.1, p.2)

/-- Drop from the right end while the predicate holds. -/
def dropRightWhile (p : Char → Bool) (l : List Char) : List Char :=
  (l.reverse.dropWhile p).reverse

/-- `s.strip(chars)`: remove any of the given characters from both ends. -/
def pyStripSet (set : List Char) (s : String) : String :=
  String.mk (dropRightWhile (fun c => c ∈ set) (s.data.dropWhile (fun c => c ∈ set)))

/-- The whitespace characters bare `str.strip()` removes (ASCII subset). -/
def isPyWs (c : Char) : Bool :=
  c == ' ' || c == '\t' || c == '\n' || c == '\r'

/-- Bare `s.strip()`: remove whitespace from both ends. -/
def pyStripWs (s : String) : String :=
  String.mk (dropRightWhile isPyWs (s.data.dropWhile isPyWs))

/-- `''.join(strings)`. -/
def pyJoin (l : List String) : String :=
  l.foldr (fun a b => a ++ b) ""

/-- Strings joined by a single separator between consecutive elements (the
specification's reading of "joined by single spaces" and of the comma-joined
multi-use string). -/
def joinWith (sep : String) : List String → String
  | [] => ""
  | [w] => w
  | w :: ws => w ++ sep ++ joinWith sep ws

/-- Python dictionary built by a comprehension over an association list: a
later binding of the same key overwrites an earlier one. -/
def assocLast {β : Type} (l : List (String × β)) (k : String) : Option β :=
  match l with
  | [] => none
  | p :: rest =>
    match assocLast rest k with
    | some v => some v
    | none => if p.1 = k then some p.2 else none

/-! ### The INSPIRE translator (`class Inspire`) -/

namespace Inspire

/-- Code list `condition_of_construction_dict` (lines 129-132). -/
def condition_of_construction_dict : String → Option String
  | "functional" =>
    some "http://inspire.ec.europa.eu/codelist/ConditionOfConstructionValue/functional"
  | _ => none

/-- Code list `elevation_reference_dict` (lines 135-138). -/
def elevation_reference_dict : String → Option String
  | "generalroof" =>
    some "http://inspire.ec.europa.eu/codelist/ElevationReferenceValue/generalRoof"
  | _ => none

/-- Code list `height_status_dict` (lines 141-144). -/
def height_status_dict : String → Option String
  | "stimata" =>
    some "http://inspire.ec.europa.eu/codelist/HeightStatusValue/estimated"
  | _ => none

/-- Code list `building_nature_dict` (lines 147-149): empty (marked TODO in the
source), so every lookup misses. -/
def building_nature_dict : String → Option String :=
  fun _ => none

/-- Code list `current_use_dict` (lines 153-160; the duplicated `'ausiliario'`
key binds the same value twice). -/
def current_use_dict : String → Option String
  | "ausiliario" => some "http://inspire.ec.europa.eu/codelist/CurrentUseValue/ancillary"
  | "negozio" => some "http://inspire.ec.europa.eu/codelist/CurrentUseValue/trade"
  | "residenziale" => some "http://inspire.ec.europa.eu/codelist/CurrentUseValue/residential"
  | "magazzino" => some "http://inspire.ec.europa.eu/codelist/CurrentUseValue/trade"
  | "laboratorio" => some "http://inspire.ec.europa.eu/codelist/CurrentUseValue/industrial"
  | _ => none

/-- The attribute path argument of the geometry lookup (lines 328 and 583). -/
def geomPath : String :=
  "GEOMETRY2D/gml:Polygon/gml:outerBoundaryIs/gml:LinearRing/gml:coordinates"

/-- One child element of an output `bu-core2d:Building`, carrying exactly the
data the translation writes into it. -/
inductive IChild where
  | beginLifespanVersion (text : String)
  | conditionOfConstruction (href : Option String)
  | dateOfConstruction (beginning : String) (ending : Option String)
  /-- The renovation block; the source emits it under the same
  `bu-base:dateOfConstruction` tag (line 233). -/
  | dateOfRenovation (beginning : String) (ending : Option String)
  | externalReference (infoSystem : Option String) (infoSystemName : Option String)
      (reference : Option String)
  | heightAboveGround (referenceHref : String) (statusHref : String)
      (uom : String) (value : Option String)
  | inspireId (localId : Option String) (namespaceText : Option String)
  | buildingNature (href : String)
  | currentUse (href : String) (percentage : String)
  | numberOfBuildingUnits (text : Option String)
  | numberOfFloorsAboveGround (text : Option String)
  | geometry2D (coordinates : XmlLeaf) (referenceGeometry : String)
      (accuracyUom : String) (accuracy : String)
  deriving DecidableEq, Repr

/-- `'{y}-01-01T00:00:00'.format(y=year)`. -/
def fmtYear (y : Option String) : String :=
  pyStr y ++ "-01-01T00:00:00"

/-- LIFESPAN_BEGINNING (lines 208-210, mandatory: `find` returning `None`
raises on `.text`). -/
def lifespanBlock (bu : Building) : Except PyErr (List IChild) :=
  match bu.find "LIFESPAN_BEGINNING" with
  | none => Except.error PyErr.attributeError
  | some leaf => Except.ok [IChild.beginLifespanVersion (fmtYear leaf.text)]

/-- CONDITION_OF_CONSTRUCTION (lines 213-217): the element is created
unconditionally; the `xlink:href` attribute is set only when CONDITION is
present. -/
def conditionBlock (bu : Building) : Except PyErr (List IChild) :=
  match bu.find "CONDITION" with
  | none => Except.ok [IChild.conditionOfConstruction none]
  | some leaf =>
    match leaf.text with
    | none => Except.error PyErr.attributeError
    | some t =>
      match condition_of_construction_dict (pyLower t) with
      | none => Except.error PyErr.keyError
      | some href => Except.ok [IChild.conditionOfConstruction (some href)]

/-- DATE_OF_CONSTRUCTION (lines 220-229). Note line 228: when DATE_C_END is
present, the emitted end timestamp is recomputed from DATE_C_BEGINNING. -/
def dateCBlock (bu : Building) : Except PyErr (List IChild) :=
  match bu.find "DATE_C_BEGINNING" with
  | none => Except.ok []
  | some bleaf =>
    match bu.find "DATE_C_END" with
    | none => Except.ok [IChild.dateOfConstruction (fmtYear bleaf.text) none]
    | some _ =>
      match bu.find "DATE_C_BEGINNING" with
      | none => Except.error PyErr.attributeError
      | some eleaf =>
        Except.ok [IChild.dateOfConstruction (fmtYear bleaf.text)
          (some (fmtYear eleaf.text))]

/-- DATE_OF_RENOVATION (lines 232-241). Note line 240: when DATE_R_END is
present, the emitted end timestamp is recomputed from DATE_R_BEGINNING. -/
def dateRBlock (bu : Building) : Except PyErr (List IChild) :=
  match bu.find "DATE_R_BEGINNING" with
  | none => Except.ok []
  | some bleaf =>
    match bu.find "DATE_R_END" with
    | none => Except.ok [IChild.dateOfRenovation (fmtYear bleaf.text) none]
    | some _ =>
      match bu.find "DATE_R_BEGINNING" with
      | none => Except.error PyErr.attributeError
      | some eleaf =>
        Except.ok [IChild.dateOfRenovation (fmtYear bleaf.text)
          (some (fmtYear eleaf.text))]

/-- EXTERNAL_REFERENCE (lines 244-253): presence is tested on
EXT_REF_REFERENCE only; the two companion fields are then read
unconditionally and raise when absent. -/
def extRefBlock (bu : Building) : Except PyErr (List IChild) :=
  match bu.find "EXT_REF_REFERENCE" with
  | none => Except.ok []
  | some _ =>
    match bu.find "EXT_REF_IDENTIFIER" with
    | none => Except.error PyErr.attributeError
    | some idLeaf =>
      match bu.find "EXT_REF_INF_SYS_NAME" with
      | none => Except.error PyErr.attributeError
      | some nameLeaf =>
        match bu.find "EXT_REF_REFERENCE" with
        | none => Except.error PyErr.attributeError
        | some refLeaf =>
          Except.ok [IChild.externalReference idLeaf.text nameLeaf.text refLeaf.text]

/-- HEIGHT_ABOVE_GROUND (lines 256-272): reference defaults to `'generalroof'`
when HEIGHT_HEIGHT_REF is absent; reference and status are code-list resolved
(`KeyError` on a miss); HEIGHT_HEIGHT_STAT is read without a presence check;
the value text is copied with fixed unit of measure `'m'`. -/
def heightBlock (bu : Building) : Except PyErr (List IChild) :=
  match bu.find "HEIGHT_HEIGHT_VAL" with
  | none => Except.ok []
  | some _ =>
    match
      (match bu.find "HEIGHT_HEIGHT_REF" with
       | some refLeaf => pyLowerOpt refLeaf.text
       | none => Except.ok "generalroof") with
    | Except.error e => Except.error e
    | Except.ok height_ref =>
      match elevation_reference_dict height_ref with
      | none => Except.error PyErr.keyError
      | some refHref =>
        match bu.find "HEIGHT_HEIGHT_STAT" with
        | none => Except.error PyErr.attributeError
        | some statLeaf =>
          match pyLowerOpt statLeaf.text with
          | Except.error e => Except.error e
          | Except.ok height_stat =>
            match height_status_dict height_stat with
            | none => Except.error PyErr.keyError
            | some statHref =>
              match bu.find "HEIGHT_HEIGHT_VAL" with
              | none => Except.error PyErr.attributeError
              | some valLeaf =>
                Except.ok [IChild.heightAboveGround refHref statHref "m" valLeaf.text]

/-- ID (lines 275-280, mandatory: both fields are read unconditionally). -/
def idBlock (bu : Building) : Except PyErr (List IChild) :=
  match bu.find "IDENTIFIER_ID_LOC" with
  | none => Except.error PyErr.attributeError
  | some locLeaf =>
    match bu.find "IDENTIFIER_ID_NAME" with
    | none => Except.error PyErr.attributeError
    | some nameLeaf => Except.ok [IChild.inspireId locLeaf.text nameLeaf.text]

/-- BUILDING_NATURE (lines 283-286): the code list is empty, so presence of
BUILDINGTYPE always ends in a `KeyError`. -/
def natureBlock (bu : Building) : Except PyErr (List IChild) :=
  match bu.find "BUILDINGTYPE" with
  | none => Except.ok []
  | some leaf =>
    match pyLowerOpt leaf.text with
    | Except.error e => Except.error e
    | Except.ok t =>
      match building_nature_dict t with
      | none => Except.error PyErr.keyError
      | some href => Except.ok [IChild.buildingNature href]

/-- One entry of the CURRENT_USE loop body (lines 292-301): split on the first
`'('`, strip `'%)'` from the percentage token, resolve the use term. -/
def currentUseEntry (use : String) : Except PyErr IChild :=
  let p := partitionChars '(' use.data
  let percent := pyStripSet ['%', ')'] (String.mk p.2)
  match current_use_dict (String.mk p.1) with
  | none => Except.error PyErr.keyError
  | some href => Except.ok (IChild.currentUse href percent)

/-- CURRENT_USE (lines 289-301): the delimited string is split on commas and
one repeated block is emitted per entry. -/
def currentUseBlock (bu : Building) : Except PyErr (List IChild) :=
  match bu.find "USE_M" with
  | none => Except.ok []
  | some leaf =>
    match leaf.text with
    | none => Except.error PyErr.attributeError
    | some s => mapME currentUseEntry (pySplit ',' s)

/-- NUMBER_OF_BUILDING_UNITS (lines 304-307; the source re-runs the same
deterministic `find` to read the text). -/
def unitsBlock (bu : Building) : Except PyErr (List IChild) :=
  match bu.find "UNITS" with
  | none => Except.ok []
  | some leaf => Except.ok [IChild.numberOfBuildingUnits leaf.text]

/-- NUMBER_OF_FLOORS_ABOVE_GROUND (lines 310-313). -/
def floorsBlock (bu : Building) : Except PyErr (List IChild) :=
  match bu.find "FLOORS" with
  | none => Except.ok []
  | some leaf => Except.ok [IChild.numberOfFloorsAboveGround leaf.text]

/-- GEOMETRY (lines 316-334, mandatory): the coordinates element (text and
attributes) is copied verbatim; `referenceGeometry = 'false'` and the accuracy
placeholder `0` with unit `'!'` are always emitted. -/
def geometryBlock (bu : Building) : Except PyErr (List IChild) :=
  match bu.find geomPath with
  | none => Except.error PyErr.attributeError
  | some co => Except.ok [IChild.geometry2D co "false" "!" "0"]

/-- The loop body of `Inspire.translate` for one building (lines 198-334): the
blocks run in source order and their children populate one
`wfs:member`/`bu-core2d:Building` element. -/
def translateBuilding (bu : Building) : Except PyErr (List IChild) :=
  catE [lifespanBlock bu, conditionBlock bu, dateCBlock bu, dateRBlock bu,
        extRefBlock bu, heightBlock bu, idBlock bu, natureBlock bu,
        currentUseBlock bu, unitsBlock bu, floorsBlock bu, geometryBlock bu]

/-- `Inspire.translate(citi_en_gov)`: one output member per iterated building. -/
def translate (c : CitiEnGov) : Except PyErr (List (List IChild)) :=
  match iterate c with
  | Except.error e => Except.error e
  | Except.ok bs => mapME translateBuilding bs

end Inspire

/-! ### The CityGML translator (`class CityGML`) -/

namespace CityGML

/-- Code list `usage_dict` (lines 360-366). -/
def usage_dict : String → Option String
  | "school" => some "2070"
  | "residential" => some "1000"
  | "residenziale" => some "1000"
  | "commercio" => some "1150"
  | "ausiliario" => some "2700"
  | _ => none

/-- Code list `roof_type_dict` (lines 368-370): empty (marked TODO). -/
def roof_type_dict : String → Option String :=
  fun _ => none

/-- Code list `height_reference_dict` (lines 372-388). -/
def height_reference_dict : String → Option String
  | "bottomOfConstruction" => some "bottomOfConstruction"
  | "entrancePoint" => some "entrancePoint"
  | "generalEave" => some "generalEave"
  | "generalroof" => some "generalRoof"
  | "generalRoofEdge" => some "generalRoofEdge"
  | "highestEave" => some "highestEave"
  | "highestPoint" => some "highestPoint"
  | "highestRoofEdge" => some "highestRoofEdge"
  | "lowestEave" => some "lowestEave"
  | "lowestFloorAboveGround" => some "lowestFloorAboveGround"
  | "lowestRoofEdge" => some "lowestRoofEdge"
  | "topOfConstruction" => some "topOfConstruction"
  | "topThermalBoundary" => some "topThermalBoundary"
  | "bottomThermalBoundary" => some "topThermalBoundary"
  | _ => none

/-- Code list `building_type_dict` (lines 392-397). -/
def building_type_dict : String → Option String
  | "ApartmentBlock" => some "ApartmentBlock"
  | "MultiFamilyHouse" => some "MultiFamilyHouse"
  | "RowHouse" => some "RowHouse"
  | "SingleFamilyHouse" => some "SingleFamilyHouse"
  | _ => none

/-- The data an `energy:EnergyDemand` block carries (lines 492-531). -/
structure Demand where
  acquisitionMethod : String
  interpolationType : String
  beginPos : String
  endPos : String
  timeIntervalUnit : String
  timeInterval : String
  uom : String
  valuesText : String
  endUse : String
  energyCarrierType : String
  deriving DecidableEq, Repr

/-- One child element of an output `bldg:Building`. -/
inductive CChild where
  | name (text : Option String)
  | creationDate (text : String)
  | terminationDate (text : String)
  | externalReference (informationSystem : Option String) (extName : Option String)
  /-- The second external-reference block reusing the identifier fields
  (lines 457-463). -/
  | externalReferenceId (informationSystem : Option String) (extName : Option String)
  | energyDemand (d : Demand)
  | usage (code : String)
  | yearOfConstruction (text : Option String)
  | roofType (code : String)
  | storeysAboveGround (text : Option String)
  | storeyHeightsAboveGround (uom : String) (text : String)
  | lod0FootPrint (coordinates : XmlLeaf)
  /-- Lines 588-600; the source writes the end text on a second element that is
  also tagged `gml:beginPosition` (line 596). -/
  | refurbishmentMeasure (beginText : Option String) (endText : Option String)
      (level : String)
  | energyPerformanceCertification (rating : Option String) (methodName : Option String)
  | heightAboveGround (reference : String) (uom : String) (value : Option String)
  | volume (volumeType : String) (uom : String) (value : Option String)
  | floorArea (areaType : String) (uom : String) (value : Option String)
  | buildingType (code : String)
  deriving DecidableEq, Repr

/-- The time-series construction inside `make_demand` (lines 503-522): sort the
year strings, take the extent from the first and last sorted year, require the
year count to equal last − first + 1 (else `NonContiguousYears`), then join the
values in sorted-year order with single spaces (via a year→value dictionary
built by `zip`, later duplicate years overwriting earlier ones). A `None` year
text is a `TypeError` (Python cannot sort or `int()` it); a `None` value text
renders as `'None'`. -/
def demandSeries (years energy_values : List (Option String))
    (uom energy_carrier_t : String) : Except PyErr Demand :=
  match mapME (ofOpt PyErr.typeError) years with
  | Except.error e => Except.error e
  | Except.ok ys =>
    let sortedYears := pySorted ys
    match sortedYears.head?, sortedYears.getLast? with
    | some beginPos, some endPos =>
      (match pyInt endPos, pyInt beginPos with
       | Except.ok lastI, Except.ok firstI =>
         if (ys.length : Int) ≠ lastI - firstI + 1 then
           Except.error PyErr.nonContiguousYears
         else
           match mapME (fun y =>
               match assocLast (ys.zip energy_values) y with
               | some v => Except.ok (pyStr v)
               | none => Except.error PyErr.keyError) sortedYears with
           | Except.error e => Except.error e
           | Except.ok rendered =>
             Except.ok { acquisitionMethod := "measurement",
                         interpolationType := "instantaneousTotal",
                         beginPos := beginPos, endPos := endPos,
                         timeIntervalUnit := "year",
                         timeInterval := toString ys.length,
                         uom := uom,
                         valuesText :=
                           pyStripWs (pyJoin (rendered.map (fun v => v ++ " "))),
                         endUse := "otherOrCombination",
                         energyCarrierType := energy_carrier_t }
       | Except.error e, _ => Except.error e
       | _, Except.error e => Except.error e)
    | _, _ => Except.error PyErr.indexError

/-- `make_demand(energy_carrier)` (lines 466-531): check the paired source
field names the expected carrier (case-insensitively; mismatch raises), gather
the per-fragment year and value texts and the unit of measure, then build the
series. -/
def make_demand (bu : Building) (energy_carrier : String) :
    Except PyErr CChild :=
  if energy_carrier = "electricity" then
    match bu.find "ENERGYAMOUNT_E_SOURCE_E" with
    | none => Except.error PyErr.attributeError
    | some srcLeaf =>
      match pyLowerOpt srcLeaf.text with
      | Except.error e => Except.error e
      | Except.ok energy_source =>
        if energy_source ≠ "electricity" then
          Except.error PyErr.energyCarrierMismatch
        else
          let years := (bu.findAll "ENERGYAMOUNT_E_YEAR_ONLY_E").map (fun y => y.text)
          match bu.find "CONSUMONORM_UOM_E" with
          | none => Except.error PyErr.attributeError
          | some uomLeaf =>
            match pyLowerOpt uomLeaf.text with
            | Except.error e => Except.error e
            | Except.ok uom =>
              let energy_values :=
                (bu.findAll "CONSUMONORM_VALORE_E").map (fun v => v.text)
              match demandSeries years energy_values uom "Electricity" with
              | Except.error e => Except.error e
              | Except.ok d => Except.ok (CChild.energyDemand d)
  else if energy_carrier = "thermal" then
    match bu.find "ENERGYAMOUNT_E_SOURCE_T" with
    | none => Except.error PyErr.attributeError
    | some srcLeaf =>
      match pyLowerOpt srcLeaf.text with
      | Except.error e => Except.error e
      | Except.ok energy_source =>
        if energy_source ≠ "thermal" then
          Except.error PyErr.energyCarrierMismatch
        else
          let years := (bu.findAll "ENERGYAMOUNT_E_YEAR_ONLY_T").map (fun y => y.text)
          match bu.find "CONSUMONORM_UOM_T" with
          | none => Except.error PyErr.attributeError
          | some uomLeaf =>
            match pyLowerOpt uomLeaf.text with
            | Except.error e => Except.error e
            | Except.ok uom =>
              let energy_values :=
                (bu.findAll "CONSUMONORM_VALORE_T").map (fun v => v.text)
              match demandSeries years energy_values uom "HotWater" with
              | Except.error e => Except.error e
              | Except.ok d => Except.ok (CChild.energyDemand d)
  else Except.error PyErr.keyError

/-- NAME (lines 431-433). -/
def nameBlock (bu : Building) : Except PyErr (List CChild) :=
  match bu.find "NAME" with
  | none => Except.ok []
  | some leaf => Except.ok [CChild.name leaf.text]

/-- `'{y}-01-01'.format(y=year)`. -/
def fmtDate (y : Option String) : String :=
  pyStr y ++ "-01-01"

/-- LIFESPAN_BEGINNING (lines 436-439). -/
def creationBlock (bu : Building) : Except PyErr (List CChild) :=
  match bu.find "LIFESPAN_BEGINNING" with
  | none => Except.ok []
  | some leaf => Except.ok [CChild.creationDate (fmtDate leaf.text)]

/-- LIFESPAN_END (lines 442-445). -/
def terminationBlock (bu : Building) : Except PyErr (List CChild) :=
  match bu.find "LIFESPAN_END" with
  | none => Except.ok []
  | some leaf => Except.ok [CChild.terminationDate (fmtDate leaf.text)]

/-- EXTERNAL_REFERENCE (lines 448-454): presence is tested on
EXT_REF_REFERENCE; EXT_REF_IDENTIFIER is then read unconditionally. -/
def extRefBlock (bu : Building) : Except PyErr (List CChild) :=
  match bu.find "EXT_REF_REFERENCE" with
  | none => Except.ok []
  | some refLeaf =>
    match bu.find "EXT_REF_IDENTIFIER" with
    | none => Except.error PyErr.attributeError
    | some idLeaf =>
      Except.ok [CChild.externalReference idLeaf.text refLeaf.text]

/-- ID (lines 457-463): presence is tested on IDENTIFIER_ID_LOC;
IDENTIFIER_ID_NAME is then read unconditionally. -/
def idBlock (bu : Building) : Except PyErr (List CChild) :=
  match bu.find "IDENTIFIER_ID_LOC" with
  | none => Except.ok []
  | some locLeaf =>
    match bu.find "IDENTIFIER_ID_NAME" with
    | none => Except.error PyErr.attributeError
    | some nameLeaf =>
      Except.ok [CChild.externalReferenceId nameLeaf.text locLeaf.text]

/-- Lines 533-534: the electricity demand is emitted only when at least one
CONSUMONORM_VALORE_E element exists (`find(_all=True)` returns only non-`None`
elements, so `all(i is None for i in ...)` holds exactly for the empty list). -/
def demandEBlock (bu : Building) : Except PyErr (List CChild) :=
  if (bu.findAll "CONSUMONORM_VALORE_E").all (fun _ => false) then Except.ok []
  else
    match make_demand bu "electricity" with
    | Except.error e => Except.error e
    | Except.ok d => Except.ok [d]

/-- Lines 536-537: likewise for the thermal carrier. -/
def demandTBlock (bu : Building) : Except PyErr (List CChild) :=
  if (bu.findAll "CONSUMONORM_VALORE_T").all (fun _ => false) then Except.ok []
  else
    match make_demand bu "thermal" with
    | Except.error e => Except.error e
    | Except.ok d => Except.ok [d]

/-- USAGE (lines 540-546). -/
def usageBlock (bu : Building) : Except PyErr (List CChild) :=
  match bu.find "USE_S" with
  | none => Except.ok []
  | some leaf =>
    match pyLowerOpt leaf.text with
    | Except.error e => Except.error e
    | Except.ok predominant_use =>
      match usage_dict predominant_use with
      | none => Except.error PyErr.keyError
      | some code => Except.ok [CChild.usage code]

/-- YEAR_OF_CONSTRUCTION (lines 549-551). -/
def yearBlock (bu : Building) : Except PyErr (List CChild) :=
  match bu.find "DATE_C_BEGINNING" with
  | none => Except.ok []
  | some leaf => Except.ok [CChild.yearOfConstruction leaf.text]

/-- ROOF_TYPE (lines 554-560): the code list is empty, so presence always ends
in a `KeyError`. -/
def roofBlock (bu : Building) : Except PyErr (List CChild) :=
  match bu.find "ROOF_TYPE" with
  | none => Except.ok []
  | some leaf =>
    match pyLowerOpt leaf.text with
    | Except.error e => Except.error e
    | Except.ok roof_t =>
      match roof_type_dict roof_t with
      | none => Except.error PyErr.keyError
      | some code => Except.ok [CChild.roofType code]

/-- STOREYES_ABOVE_GROUND with the nested STORY_HEIGHTS_ABOVE_GROUND
(lines 563-573): the same per-floor height is repeated `int(floors)` times and
comma-joined, then trailing commas are stripped. -/
def storeysBlock (bu : Building) : Except PyErr (List CChild) :=
  match bu.find "FLOORS" with
  | none => Except.ok []
  | some floorsLeaf =>
    let floors := floorsLeaf.text
    match bu.find "H_FLOOR" with
    | none => Except.ok [CChild.storeysAboveGround floors]
    | some heiLeaf =>
      match floors with
      | none => Except.error PyErr.typeError
      | some fl =>
        match pyInt fl with
        | Except.error e => Except.error e
        | Except.ok n =>
          let text := pyStripSet [','] (pyJoin (List.replicate n.toNat
            (pyStr heiLeaf.text ++ ",")))
          Except.ok [CChild.storeysAboveGround floors,
                     CChild.storeyHeightsAboveGround "m" text]

/-- GEOMETRY (lines 576-585, mandatory): the coordinates element (text and
attributes) is copied verbatim. -/
def geometryBlock (bu : Building) : Except PyErr (List CChild) :=
  match bu.find Inspire.geomPath with
  | none => Except.error PyErr.attributeError
  | some co => Except.ok [CChild.lod0FootPrint co]

/-- REFURBISHMENT_MEASURE (lines 588-600): presence is tested on
DATE_R_BEGINNING; DATE_R_END is then read unconditionally. -/
def refurbishmentBlock (bu : Building) : Except PyErr (List CChild) :=
  match bu.find "DATE_R_BEGINNING" with
  | none => Except.ok []
  | some bleaf =>
    match bu.find "DATE_R_END" with
    | none => Except.error PyErr.attributeError
    | some eleaf =>
      Except.ok [CChild.refurbishmentMeasure bleaf.text eleaf.text "unknown"]

/-- ENERGY_PERFORMANCE_CERTIFICATION (lines 603-613): presence is tested on
ENERGYPERFORMANCE_PERF_CLASS; the method field is then read unconditionally. -/
def certBlock (bu : Building) : Except PyErr (List CChild) :=
  match bu.find "ENERGYPERFORMANCE_PERF_CLASS" with
  | none => Except.ok []
  | some classLeaf =>
    match bu.find "ENERGYPERFORMANCE_PERF_METHOD" with
    | none => Except.error PyErr.attributeError
    | some methodLeaf =>
      Except.ok [CChild.energyPerformanceCertification classLeaf.text methodLeaf.text]

/-- HEIGHT_ABOVE_GROUND (lines 616-624): unlike the INSPIRE mapping there is no
default; HEIGHT_HEIGHT_REF is read unconditionally once the value is present,
and resolved through `height_reference_dict`. -/
def heightBlock (bu : Building) : Except PyErr (List CChild) :=
  match bu.find "HEIGHT_HEIGHT_VAL" with
  | none => Except.ok []
  | some _ =>
    match bu.find "HEIGHT_HEIGHT_REF" with
    | none => Except.error PyErr.attributeError
    | some refLeaf =>
      match pyLowerOpt refLeaf.text with
      | Except.error e => Except.error e
      | Except.ok h_reference =>
        match height_reference_dict h_reference with
        | none => Except.error PyErr.keyError
        | some code =>
          match bu.find "HEIGHT_HEIGHT_VAL" with
          | none => Except.error PyErr.attributeError
          | some valLeaf =>
            Except.ok [CChild.heightAboveGround code "m" valLeaf.text]

/-- VOLUME, gross (lines 627-634). -/
def grossVolumeBlock (bu : Building) : Except PyErr (List CChild) :=
  match bu.find "VOLUME_VALUE" with
  | none => Except.ok []
  | some leaf => Except.ok [CChild.volume "grossVolume" "m3" leaf.text]

/-- VOLUME, energy reference (lines 636-643). -/
def energyVolumeBlock (bu : Building) : Except PyErr (List CChild) :=
  match bu.find "ENERGYPERF_VOLUME_VALUE" with
  | none => Except.ok []
  | some leaf => Except.ok [CChild.volume "energyReferenceVolume" "m3" leaf.text]

/-- FLOOR_AREA (lines 646-653). -/
def floorAreaBlock (bu : Building) : Except PyErr (List CChild) :=
  match bu.find "SURFACE_VALUE" with
  | none => Except.ok []
  | some leaf => Except.ok [CChild.floorArea "grossFloorArea" "m2" leaf.text]

/-- BUILDING_TYPE (lines 658-664). -/
def buildingTypeBlock (bu : Building) : Except PyErr (List CChild) :=
  match bu.find "BUILDINGTYPE" with
  | none => Except.ok []
  | some leaf =>
    match pyLowerOpt leaf.text with
    | Except.error e => Except.error e
    | Except.ok building_typ =>
      match building_type_dict building_typ with
      | none => Except.error PyErr.keyError
      | some code => Except.ok [CChild.buildingType code]

/-- The loop body of `CityGML.translate` for one building (lines 422-664). -/
def translateBuilding (bu : Building) : Except PyErr (List CChild) :=
  catE [nameBlock bu, creationBlock bu, terminationBlock bu, extRefBlock bu,
        idBlock bu, demandEBlock bu, demandTBlock bu, usageBlock bu,
        yearBlock bu, roofBlock bu, storeysBlock bu, geometryBlock bu,
        refurbishmentBlock bu, certBlock bu, heightBlock bu,
        grossVolumeBlock bu, energyVolumeBlock bu, floorAreaBlock bu,
        buildingTypeBlock bu]

/-- `CityGML.translate(citi_en_gov)`: one output member per iterated building. -/
def translate (c : CitiEnGov) : Except PyErr (List (List CChild)) :=
  match iterate c with
  | Except.error e => Except.error e
  | Except.ok bs => mapME translateBuilding bs

end CityGML

/-! ### Relations used to state the specification-side properties -/

/-- Ascending order on (year, value) pairs by the numeric year, as the
specification reads "values sorted by year ascending". -/
def yearLe (p q : String × String) : Prop :=
  charsValStr p.1 ≤ charsValStr q.1

instance : DecidableRel yearLe :=
  fun p q => inferInstanceAs (Decidable (charsValStr p.1 ≤ charsValStr q.1))

/-- The sort key Python's `sorted` uses on (year, value) pairs when only the
year string is compared. -/
def pairLeStr (p q : String × String) : Prop :=
  pyStrLe p.1 q.1

instance : DecidableRel pairLeStr :=
  fun p q => inferInstanceAs (Decidable (pyStrLe p.1 q.1))

/-! ### Concrete source data used by the witnesses -/

/-- An element with the given text and no attributes. -/
def wLeaf (t : String) : XmlLeaf :=
  { attrib := [], text := some t }

/-- A feature member carrying all attributes both translators require. -/
def fragFull : Fragment :=
  { attrs := [("UUID", wLeaf "u1"), ("LIFESPAN_BEGINNING", wLeaf "1990"),
              ("IDENTIFIER_ID_LOC", wLeaf "loc1"), ("IDENTIFIER_ID_NAME", wLeaf "ns1"),
              (Inspire.geomPath, { attrib := [("cs", ",")], text := some "0,0 1,0 1,1" })] }

/-- A second feature member of the same building, carrying only the
identifier. -/
def fragDup : Fragment :=
  { attrs := [("UUID", wLeaf "u1")] }

/-- A feature member with no identifier element at all. -/
def fragNoUUID : Fragment :=
  { attrs := [("NAME", wLeaf "anonymous")] }

/-- A two-fragment source document describing one building. -/
def docMain : List Fragment :=
  [fragFull, fragDup]

/-- The source-document state `citiEnGovInit docMain` produces. -/
def cMain : CitiEnGov :=
  { feature_members := docMain, building_UUIDs := [some "u1"] }

/-- The building record for docMain's single identifier. -/
def buMain : Building :=
  { UUID := some "u1", feature_list := docMain }

/-- A building with construction and renovation date ranges (begin 1990,
end 2000; renovation begin 1980, end 1999). -/
def buDates : Building :=
  { UUID := some "u",
    feature_list := [{ attrs := [("DATE_C_BEGINNING", wLeaf "1990"),
                                 ("DATE_C_END", wLeaf "2000"),
                                 ("DATE_R_BEGINNING", wLeaf "1980"),
                                 ("DATE_R_END", wLeaf "1999")] }] }

/-- A building carrying the multi-use string of the specification's test. -/
def buUse : Building :=
  { UUID := some "u",
    feature_list := [{ attrs := [("USE_M", wLeaf "residenziale(80%),negozio(20%)")] }] }

/-- A building with a height value and status but no height reference. -/
def buHeight : Building :=
  { UUID := some "u",
    feature_list := [{ attrs := [("HEIGHT_HEIGHT_VAL", wLeaf "12.5"),
                                 ("HEIGHT_HEIGHT_STAT", wLeaf "Stimata")] }] }

/-! ### Basic facts about the error-propagating combinators -/

theorem mapME_ok_length {f : α → Except PyErr β} :
    ∀ {l : List α} {bs : List β}, mapME f l = Except.ok bs → bs.length = l.length := by
  intro l
  induction l with
  | nil => intro bs h; simp [mapME] at h; simp [← h]
  | cons a as ih =>
    intro bs h
    simp only [mapME] at h
    cases hfa : f a with
    | error e => rw [hfa] at h; exact absurd h (by simp)
    | ok b =>
      rw [hfa] at h
      cases hrec : mapME f as with
      | error e => rw [hrec] at h; exact absurd h (by simp)
      | ok bs2 =>
        rw [hrec] at h
        cases h
        simp [ih hrec]

theorem mapME_ok_map {f : α → Except PyErr β} {g : α → β} :
    ∀ {l : List α}, (∀ a ∈ l, f a = Except.ok (g a)) →
      mapME f l = Except.ok (l.map g) := by
  intro l
  induction l with
  | nil => intro _; rfl
  | cons a as ih =>
    intro h
    simp only [mapME, h a (by simp), ih (fun x hx => h x (by simp [hx])), List.map]

theorem catE_cons_ok {x : Except PyErr (List α)} {xs : List (Except PyErr (List α))}
    {out : List α} :
    catE (x :: xs) = Except.ok out ↔
      ∃ l ls, x = Except.ok l ∧ catE xs = Except.ok ls ∧ out = l ++ ls := by
  cases x with
  | error e => simp [catE]
  | ok l =>
    cases hxs : catE xs with
    | error e => simp [catE, hxs]
    | ok ls =>
      simp only [catE, hxs]
      constructor
      · intro h; cases h; exact ⟨l, ls, rfl, rfl, rfl⟩
      · rintro ⟨l2, ls2, h1, h2, h3⟩
        cases h1; cases h2; simp [h3]

/-! ### Facts about identifier extraction and fragment grouping -/

theorem getFeatures_all_of_ok {fms : List Fragment} {u : Option String}
    {l : List Fragment} (h : getFeatures fms u = Except.ok l) :
    ∀ f ∈ fms, ∃ leaf, attrFind f "UUID" = some leaf := by
  induction fms generalizing l with
  | nil => intro f hf; cases hf
  | cons g rest ih =>
    intro f hf
    simp only [getFeatures] at h
    cases hg : attrFind g "UUID" with
    | none => rw [hg] at h; exact absurd h (by simp)
    | some leaf =>
      rw [hg] at h
      cases hrec : getFeatures rest u with
      | error e => rw [hrec] at h; exact absurd h (by simp)
      | ok tail =>
        rcases List.mem_cons.mp hf with rfl | hf2
        · exact ⟨leaf, hg⟩
        · exact ih hrec f hf2

theorem getFeatures_ok_of_all {fms : List Fragment} {u : Option String}
    (h : ∀ f ∈ fms, ∃ leaf, attrFind f "UUID" = some leaf) :
    getFeatures fms u = Except.ok (fms.filter
      (fun f => decide ((attrFind f "UUID").map XmlLeaf.text = some u))) := by
  induction fms with
  | nil => rfl
  | cons g rest ih =>
    obtain ⟨leaf, hg⟩ := h g (by simp)
    have hrec := ih (fun f hf => h f (by simp [hf]))
    simp only [getFeatures, hg, hrec, List.filter]
    by_cases ht : leaf.text = u
    · simp [ht, hg]
    · simp [ht, hg]

theorem getFeatures_error_of_missing {fms : List Fragment} {u : Option String}
    {f : Fragment} (hf : f ∈ fms) (hnone : attrFind f "UUID" = none) :
    getFeatures fms u = Except.error PyErr.attributeError := by
  induction fms with
  | nil => cases hf
  | cons g rest ih =>
    rcases List.mem_cons.mp hf with rfl | hf2
    · simp [getFeatures, hnone]
    · simp only [getFeatures]
      cases hg : attrFind g "UUID" with
      | none => rfl
      | some leaf => rw [ih hf2]

theorem extractUUIDs_mem {doc : List Fragment} {u : Option String}
    (h : u ∈ extractUUIDs doc) :
    ∃ f ∈ doc, ∃ leaf, attrFind f "UUID" = some leaf ∧ leaf.text = u := by
  simp only [extractUUIDs, List.mem_filterMap] at h
  obtain ⟨f, hf, hmap⟩ := h
  cases hleaf : attrFind f "UUID" with
  | none => rw [hleaf] at hmap; cases hmap
  | some leaf =>
    rw [hleaf] at hmap
    exact ⟨f, hf, leaf, hleaf, by simpa using hmap⟩

theorem citiEnGovInit_ok_elim {doc : List Fragment} {c : CitiEnGov}
    (h : citiEnGovInit doc = Except.ok c) :
    c.feature_members = doc ∧ c.building_UUIDs = (extractUUIDs doc).dedup ∧
      c.building_UUIDs ≠ [] ∧
      ∀ f ∈ doc, ∃ leaf, attrFind f "UUID" = some leaf := by
  simp only [citiEnGovInit] at h
  split at h
  · exact absurd h (by simp)
  · rename_i u0 hh
    split at h
    · exact absurd h (by simp)
    · rename_i b0 hb
      cases h
      refine ⟨rfl, rfl, ?_, ?_⟩
      · intro hnil
        have hnil2 : (extractUUIDs doc).dedup = [] := hnil
        rw [hnil2] at hh; cases hh
      · simp only [getBuilding] at hb
        cases hgf : getFeatures doc u0 with
        | error e => rw [hgf] at hb; exact absurd hb (by simp)
        | ok fl => exact getFeatures_all_of_ok hgf

theorem length_filterMap_lt {f : α → Option β} {l : List α} {a : α}
    (ha : a ∈ l) (hfa : f a = none) : (l.filterMap f).length < l.length := by
  induction l with
  | nil => cases ha
  | cons x xs ih =>
    rcases List.mem_cons.mp ha with rfl | h2
    · rw [List.filterMap_cons_none hfa]
      have := List.length_filterMap_le f xs
      simp only [List.length_cons]
      omega
    · cases hfx : f x with
      | none =>
        rw [List.filterMap_cons_none hfx]
        have := ih h2
        simp only [List.length_cons]
        omega
      | some b =>
        rw [List.filterMap_cons_some hfx]
        have := ih h2
        simp only [List.length_cons]
        omega

/-- C10: a well-formed source document with zero feature-member fragments has
an empty identifier list, and constructing the source-document state itself
fails (the constructor indexes the first element of the empty identifier
list), rather than producing a document yielding an empty building sequence. -/
theorem empty_document_constructor_fails :
    citiEnGovInit [] = Except.error PyErr.indexError := by
  rfl

/-- C3 counterexample: on a document whose first fragment has no value at the
identifier path, `buildingIdentifiers()` does not fail — extraction is total
and silently skips that fragment, returning only the other fragment's
identifier. -/
theorem identifier_extraction_not_failing :
    attrFind fragNoUUID "UUID" = none ∧
      extractUUIDs [fragNoUUID, fragFull] = [some "u1"] := by
  exact ⟨rfl, rfl⟩

/-- C3 amended: identifier extraction silently skips every feature-member
fragment lacking a value at `GML_BUILDINGS_CEG/UUID` (strictly fewer
identifiers than fragments, and each identifier comes from a fragment that has
the path); the document constructor still fails on such documents whenever at
least one identifier exists, but in the grouping step and with an attribute
error, not with `MissingIdentifier` inside `buildingIdentifiers()`. -/
theorem identifier_extraction_skips_missing (doc : List Fragment) (f : Fragment)
    (hf : f ∈ doc) (hnone : attrFind f "UUID" = none) :
    (extractUUIDs doc).length < doc.length ∧
      (∀ u ∈ extractUUIDs doc,
        ∃ g ∈ doc, ∃ leaf, attrFind g "UUID" = some leaf ∧ leaf.text = u) ∧
      (extractUUIDs doc ≠ [] →
        citiEnGovInit doc = Except.error PyErr.attributeError) := by
  refine ⟨?_, ?_, ?_⟩
  · exact length_filterMap_lt hf (by simp [hnone])
  · intro u hu; exact extractUUIDs_mem hu
  · intro hne
    have hd : (extractUUIDs doc).dedup ≠ [] := by
      simpa [List.dedup_eq_nil] using hne
    obtain ⟨u0, us, he⟩ := List.exists_cons_of_ne_nil hd
    simp only [citiEnGovInit, he, List.head?_cons, getBuilding,
      getFeatures_error_of_missing hf hnone]

/-- C3 amended, witnessed on the two-fragment document whose first fragment
lacks the identifier path. -/
theorem identifier_extraction_skips_missing_witness :
    (extractUUIDs [fragNoUUID, fragFull]).length <
        ([fragNoUUID, fragFull] : List Fragment).length ∧
      (∀ u ∈ extractUUIDs [fragNoUUID, fragFull],
        ∃ g ∈ [fragNoUUID, fragFull],
          ∃ leaf, attrFind g "UUID" = some leaf ∧ leaf.text = u) ∧
      (extractUUIDs [fragNoUUID, fragFull] ≠ [] →
        citiEnGovInit [fragNoUUID, fragFull] =
          Except.error PyErr.attributeError) :=
  identifier_extraction_skips_missing [fragNoUUID, fragFull] fragNoUUID
    (by simp) rfl

/-- C9: after a successful document construction, every identifier's building
record groups exactly the feature members whose identifier text equals it (by
exact string equality), and its fragment list is non-empty. (The record is a
value of the pure embedding, so it cannot be mutated after construction.) -/
theorem building_record_grouping (doc : List Fragment) (c : CitiEnGov)
    (hinit : citiEnGovInit doc = Except.ok c) :
    ∀ u ∈ c.building_UUIDs,
      ∃ b, getBuilding c.feature_members u = Except.ok b ∧ b.UUID = u ∧
        b.feature_list = c.feature_members.filter
          (fun f => decide ((attrFind f "UUID").map XmlLeaf.text = some u)) ∧
        b.feature_list ≠ [] := by
  obtain ⟨hfm, huu, -, hall⟩ := citiEnGovInit_ok_elim hinit
  intro u hu
  rw [hfm]
  refine ⟨{ UUID := u,
            feature_list := doc.filter
              (fun f => decide ((attrFind f "UUID").map XmlLeaf.text = some u)) },
          ?_, rfl, rfl, ?_⟩
  · simp [getBuilding, getFeatures_ok_of_all hall]
  · rw [huu, List.mem_dedup] at hu
    obtain ⟨g, hg, leaf, hleaf, htext⟩ := extractUUIDs_mem hu
    intro hnil
    have : g ∈ doc.filter
        (fun f => decide ((attrFind f "UUID").map XmlLeaf.text = some u)) := by
      rw [List.mem_filter]
      exact ⟨hg, by simp [hleaf, htext]⟩
    have hnil2 : doc.filter
        (fun f => decide ((attrFind f "UUID").map XmlLeaf.text = some u)) = [] := hnil
    rw [hnil2] at this
    cases this

/-- C9, witnessed on the two-fragment single-building document at its sole
identifier. -/
theorem building_record_grouping_witness :
    ∃ b, getBuilding cMain.feature_members (some "u1") = Except.ok b ∧
      b.UUID = some "u1" ∧
      b.feature_list = cMain.feature_members.filter
        (fun f => decide ((attrFind f "UUID").map XmlLeaf.text =
          some (some "u1"))) ∧
      b.feature_list ≠ [] :=
  building_record_grouping docMain cMain rfl (some "u1") (by decide)

/-- C1: after a successful document construction, the identifier list is the
deduplicated (hence duplicate-free) extraction result, the building iterator
yields exactly one building record per identifier (in order, one each), and a
successful `translate` — for either target standard — emits exactly one output
building member per identifier. -/
theorem member_count_eq_identifier_count (doc : List Fragment) (c : CitiEnGov)
    (hinit : citiEnGovInit doc = Except.ok c) :
    c.building_UUIDs = (extractUUIDs doc).dedup ∧
      c.building_UUIDs.Nodup ∧
      (∃ bs, iterate c = Except.ok bs ∧ bs.length = c.building_UUIDs.length ∧
        bs.map Building.UUID = c.building_UUIDs) ∧
      (∀ out, Inspire.translate c = Except.ok out →
        out.length = c.building_UUIDs.length) ∧
      (∀ out, CityGML.translate c = Except.ok out →
        out.length = c.building_UUIDs.length) := by
  obtain ⟨hfm, huu, -, hall⟩ := citiEnGovInit_ok_elim hinit
  have hiter : iterate c = Except.ok (c.building_UUIDs.map (fun u =>
      { UUID := u,
        feature_list := doc.filter
          (fun f => decide ((attrFind f "UUID").map XmlLeaf.text = some u)) })) := by
    unfold iterate
    rw [hfm]
    exact mapME_ok_map (fun u _ => by simp [getBuilding, getFeatures_ok_of_all hall])
  refine ⟨huu, by rw [huu]; exact List.nodup_dedup _,
    ⟨_, hiter, by simp, by rw [List.map_map]; exact List.map_id _⟩, ?_, ?_⟩
  · intro out h
    unfold Inspire.translate at h
    rw [hiter] at h
    have := mapME_ok_length h
    simpa using this
  · intro out h
    unfold CityGML.translate at h
    rw [hiter] at h
    have := mapME_ok_length h
    simpa using this

/-- C1, witnessed on the two-fragment single-building document. -/
theorem member_count_eq_identifier_count_witness :
    cMain.building_UUIDs = (extractUUIDs docMain).dedup ∧
      cMain.building_UUIDs.Nodup ∧
      (∃ bs, iterate cMain = Except.ok bs ∧
        bs.length = cMain.building_UUIDs.length ∧
        bs.map Building.UUID = cMain.building_UUIDs) ∧
      (∀ out, Inspire.translate cMain = Except.ok out →
        out.length = cMain.building_UUIDs.length) ∧
      (∀ out, CityGML.translate cMain = Except.ok out →
        out.length = cMain.building_UUIDs.length) :=
  member_count_eq_identifier_count docMain cMain rfl

/-! ### Where each output child element can come from -/

theorem mapME_mem {f : α → Except PyErr β} :
    ∀ {l : List α} {bs : List β}, mapME f l = Except.ok bs →
      ∀ b ∈ bs, ∃ a ∈ l, f a = Except.ok b := by
  intro l
  induction l with
  | nil => intro bs h b hb; simp [mapME] at h; subst h; cases hb
  | cons a as ih =>
    intro bs h b hb
    simp only [mapME] at h
    cases hfa : f a with
    | error e => rw [hfa] at h; exact absurd h (by simp)
    | ok b0 =>
      rw [hfa] at h
      cases hrec : mapME f as with
      | error e => rw [hrec] at h; exact absurd h (by simp)
      | ok bs2 =>
        rw [hrec] at h
        cases h
        rcases List.mem_cons.mp hb with rfl | hb2
        · exact ⟨a, by simp, hfa⟩
        · obtain ⟨a2, ha2, hfa2⟩ := ih hrec b hb2
          exact ⟨a2, by simp [ha2], hfa2⟩

theorem catE_mem {xs : List (Except PyErr (List α))} {out : List α}
    (h : catE xs = Except.ok out) :
    ∀ x ∈ xs, ∃ l, x = Except.ok l ∧ l ⊆ out := by
  induction xs generalizing out with
  | nil => intro x hx; cases hx
  | cons y ys ih =>
    obtain ⟨l, ls, hy, hys, rfl⟩ := catE_cons_ok.mp h
    intro x hx
    rcases List.mem_cons.mp hx with rfl | hx2
    · exact ⟨l, hy, List.subset_append_left l ls⟩
    · obtain ⟨l2, hl2, hsub⟩ := ih hys x hx2
      exact ⟨l2, hl2, hsub.trans (List.subset_append_right l ls)⟩

theorem catE_forall_mem {xs : List (Except PyErr (List α))} {out : List α}
    (h : catE xs = Except.ok out) :
    ∀ y ∈ out, ∃ x ∈ xs, ∃ l, x = Except.ok l ∧ y ∈ l := by
  induction xs generalizing out with
  | nil =>
    intro y hy
    simp only [catE] at h
    cases h
    cases hy
  | cons z zs ih =>
    obtain ⟨l, ls, hz, hzs, rfl⟩ := catE_cons_ok.mp h
    intro y hy
    rcases List.mem_append.mp hy with hy1 | hy2
    · exact ⟨z, by simp, l, hz, hy1⟩
    · obtain ⟨x, hx, l2, hl2, hyl2⟩ := ih hzs y hy2
      exact ⟨x, by simp [hx], l2, hl2, hyl2⟩

namespace Inspire

theorem lifespanBlock_shape {bu : Building} {l : List IChild}
    (h : lifespanBlock bu = Except.ok l) :
    ∀ x ∈ l, ∃ t, x = IChild.beginLifespanVersion t := by
  unfold lifespanBlock at h
  cases hf : bu.find "LIFESPAN_BEGINNING" with
  | none => rw [hf] at h; cases h
  | some leaf => rw [hf] at h; cases h; simp

theorem conditionBlock_shape {bu : Building} {l : List IChild}
    (h : conditionBlock bu = Except.ok l) :
    ∃ href, l = [IChild.conditionOfConstruction href] ∧
      (href.isSome ↔ (bu.find "CONDITION").isSome) := by
  unfold conditionBlock at h
  split at h
  next hf => cases h; exact ⟨none, rfl, by simp [hf]⟩
  next leaf hf =>
    split at h
    next => cases h
    next t ht =>
      split at h
      next => cases h
      next href hd => cases h; exact ⟨some href, rfl, by simp [hf]⟩

theorem dateCBlock_shape {bu : Building} {l : List IChild}
    (h : dateCBlock bu = Except.ok l) :
    (∀ x ∈ l, ∃ b e, x = IChild.dateOfConstruction b e) ∧
      (l ≠ [] → (bu.find "DATE_C_BEGINNING").isSome) := by
  unfold dateCBlock at h
  cases hf : bu.find "DATE_C_BEGINNING" with
  | none => rw [hf] at h; cases h; exact ⟨by simp, by simp⟩
  | some bleaf =>
    rw [hf] at h
    cases he : bu.find "DATE_C_END" with
    | none => rw [he] at h; cases h; exact ⟨by simp, fun _ => by simp [hf]⟩
    | some eleaf =>
      rw [he] at h
      cases h
      exact ⟨by simp, fun _ => by simp [hf]⟩

theorem dateRBlock_shape {bu : Building} {l : List IChild}
    (h : dateRBlock bu = Except.ok l) :
    (∀ x ∈ l, ∃ b e, x = IChild.dateOfRenovation b e) ∧
      (l ≠ [] → (bu.find "DATE_R_BEGINNING").isSome) := by
  unfold dateRBlock at h
  cases hf : bu.find "DATE_R_BEGINNING" with
  | none => rw [hf] at h; cases h; exact ⟨by simp, by simp⟩
  | some bleaf =>
    rw [hf] at h
    cases he : bu.find "DATE_R_END" with
    | none => rw [he] at h; cases h; exact ⟨by simp, fun _ => by simp [hf]⟩
    | some eleaf =>
      rw [he] at h
      cases h
      exact ⟨by simp, fun _ => by simp [hf]⟩

theorem extRefBlock_shape {bu : Building} {l : List IChild}
    (h : extRefBlock bu = Except.ok l) :
    (∀ x ∈ l, ∃ i n r, x = IChild.externalReference i n r) ∧
      (l ≠ [] → (bu.find "EXT_REF_REFERENCE").isSome) := by
  unfold extRefBlock at h
  cases hf : bu.find "EXT_REF_REFERENCE" with
  | none => rw [hf] at h; cases h; exact ⟨by simp, by simp⟩
  | some refLeaf =>
    rw [hf] at h
    cases h1 : bu.find "EXT_REF_IDENTIFIER" with
    | none => rw [h1] at h; cases h
    | some idLeaf =>
      rw [h1] at h
      cases h2 : bu.find "EXT_REF_INF_SYS_NAME" with
      | none => rw [h2] at h; cases h
      | some nameLeaf =>
        rw [h2] at h
        cases h
        exact ⟨by simp, fun _ => by simp [hf]⟩

theorem heightBlock_shape {bu : Building} {l : List IChild}
    (h : heightBlock bu = Except.ok l) :
    (∀ x ∈ l, ∃ r s u v, x = IChild.heightAboveGround r s u v) ∧
      (l ≠ [] → (bu.find "HEIGHT_HEIGHT_VAL").isSome) := by
  unfold heightBlock at h
  split at h
  next hf => cases h; exact ⟨by simp, by simp⟩
  next valLeaf hf =>
    split at h
    next => cases h
    next href2 =>
      split at h
      next => cases h
      next refHref hd =>
        split at h
        next => cases h
        next statLeaf hs =>
          split at h
          next => cases h
          next stat hstat =>
            split at h
            next => cases h
            next statHref hsd =>
              split at h
              next => cases h
              next valLeaf2 hv2 =>
                cases h
                exact ⟨by simp, fun _ => by simp [hf]⟩

theorem idBlock_shape {bu : Building} {l : List IChild}
    (h : idBlock bu = Except.ok l) :
    ∀ x ∈ l, ∃ a b, x = IChild.inspireId a b := by
  unfold idBlock at h
  cases h1 : bu.find "IDENTIFIER_ID_LOC" with
  | none => rw [h1] at h; cases h
  | some locLeaf =>
    rw [h1] at h
    cases h2 : bu.find "IDENTIFIER_ID_NAME" with
    | none => rw [h2] at h; cases h
    | some nameLeaf => rw [h2] at h; cases h; simp

theorem natureBlock_shape {bu : Building} {l : List IChild}
    (h : natureBlock bu = Except.ok l) :
    (∀ x ∈ l, ∃ href, x = IChild.buildingNature href) ∧
      (l ≠ [] → (bu.find "BUILDINGTYPE").isSome) := by
  unfold natureBlock at h
  split at h
  next hf => cases h; exact ⟨by simp, by simp⟩
  next leaf hf =>
    split at h
    next => cases h
    next t ht =>
      split at h
      next => cases h
      next href hd =>
        cases h
        exact ⟨by simp, fun _ => by simp [hf]⟩

theorem currentUseBlock_shape {bu : Building} {l : List IChild}
    (h : currentUseBlock bu = Except.ok l) :
    (∀ x ∈ l, ∃ href p, x = IChild.currentUse href p) ∧
      (l ≠ [] → (bu.find "USE_M").isSome) := by
  unfold currentUseBlock at h
  split at h
  next hf => cases h; exact ⟨by simp, by simp⟩
  next leaf hf =>
    split at h
    next => cases h
    next s hs =>
      refine ⟨?_, fun _ => by simp [hf]⟩
      intro x hx
      obtain ⟨a, _, ha⟩ := mapME_mem h x hx
      unfold currentUseEntry at ha
      dsimp only at ha
      split at ha
      · cases ha
      · cases ha; simp

theorem unitsBlock_shape {bu : Building} {l : List IChild}
    (h : unitsBlock bu = Except.ok l) :
    (∀ x ∈ l, ∃ t, x = IChild.numberOfBuildingUnits t) ∧
      (l ≠ [] → (bu.find "UNITS").isSome) := by
  unfold unitsBlock at h
  cases hf : bu.find "UNITS" with
  | none => rw [hf] at h; cases h; exact ⟨by simp, by simp⟩
  | some leaf => rw [hf] at h; cases h; exact ⟨by simp, fun _ => by simp [hf]⟩

theorem floorsBlock_shape {bu : Building} {l : List IChild}
    (h : floorsBlock bu = Except.ok l) :
    (∀ x ∈ l, ∃ t, x = IChild.numberOfFloorsAboveGround t) ∧
      (l ≠ [] → (bu.find "FLOORS").isSome) := by
  unfold floorsBlock at h
  cases hf : bu.find "FLOORS" with
  | none => rw [hf] at h; cases h; exact ⟨by simp, by simp⟩
  | some leaf => rw [hf] at h; cases h; exact ⟨by simp, fun _ => by simp [hf]⟩

theorem geometryBlock_shape {bu : Building} {l : List IChild}
    (h : geometryBlock bu = Except.ok l) :
    ∃ co, bu.find geomPath = some co ∧
      l = [IChild.geometry2D co "false" "!" "0"] := by
  unfold geometryBlock at h
  cases hf : bu.find geomPath with
  | none => rw [hf] at h; cases h
  | some co => rw [hf] at h; cases h; exact ⟨co, rfl, rfl⟩

end Inspire

namespace CityGML

theorem footprintBlock_shape {bu : Building} {l : List CChild}
    (h : geometryBlock bu = Except.ok l) :
    ∃ co, bu.find Inspire.geomPath = some co ∧
      l = [CChild.lod0FootPrint co] := by
  unfold geometryBlock at h
  cases hf : bu.find Inspire.geomPath with
  | none => rw [hf] at h; cases h
  | some co => rw [hf] at h; cases h; exact ⟨co, rfl, rfl⟩

end CityGML

/-- C2 (code-bug evaluation): on a building whose construction dates are
1990..2000 and renovation dates 1980..1999, the code emits the end timestamps
recomputed from the *begin* attributes (lines 228 and 240), so both end texts
repeat the begin year instead of using the end-year attributes. -/
theorem date_end_recomputed_from_beginning :
    buDates.find "DATE_C_END" = some (wLeaf "2000") ∧
      buDates.find "DATE_R_END" = some (wLeaf "1999") ∧
      Inspire.dateCBlock buDates = Except.ok
        [Inspire.IChild.dateOfConstruction "1990-01-01T00:00:00"
          (some "1990-01-01T00:00:00")] ∧
      Inspire.dateRBlock buDates = Except.ok
        [Inspire.IChild.dateOfRenovation "1980-01-01T00:00:00"
          (some "1980-01-01T00:00:00")] :=
  ⟨rfl, rfl, rfl, rfl⟩

/-- C7: whenever either translation of a building succeeds, the emitted
geometry child carries the very coordinates element found in the source (text
and attributes character-identical, being the same value). -/
theorem geometry_coordinates_roundtrip (bu : Building) :
    (∀ out, Inspire.translateBuilding bu = Except.ok out →
      ∃ co, bu.find Inspire.geomPath = some co ∧
        Inspire.IChild.geometry2D co "false" "!" "0" ∈ out) ∧
    (∀ out, CityGML.translateBuilding bu = Except.ok out →
      ∃ co, bu.find Inspire.geomPath = some co ∧
        CityGML.CChild.lod0FootPrint co ∈ out) := by
  constructor
  · intro out h
    unfold Inspire.translateBuilding at h
    obtain ⟨l, hl, hsub⟩ := catE_mem h (Inspire.geometryBlock bu) (by simp)
    obtain ⟨co, hco, rfl⟩ := Inspire.geometryBlock_shape hl
    exact ⟨co, hco, hsub (by simp)⟩
  · intro out h
    unfold CityGML.translateBuilding at h
    obtain ⟨l, hl, hsub⟩ := catE_mem h (CityGML.geometryBlock bu) (by simp)
    obtain ⟨co, hco, rfl⟩ := CityGML.footprintBlock_shape hl
    exact ⟨co, hco, hsub (by simp)⟩

/-- C7, witnessed on the one-building document's building record for both
translators. -/
theorem geometry_coordinates_roundtrip_witness :
    (∃ co, buMain.find Inspire.geomPath = some co ∧
      Inspire.IChild.geometry2D co "false" "!" "0" ∈
        [Inspire.IChild.beginLifespanVersion "1990-01-01T00:00:00",
         Inspire.IChild.conditionOfConstruction none,
         Inspire.IChild.inspireId (some "loc1") (some "ns1"),
         Inspire.IChild.geometry2D
           { attrib := [("cs", ",")], text := some "0,0 1,0 1,1" } "false" "!" "0"]) ∧
    (∃ co, buMain.find Inspire.geomPath = some co ∧
      CityGML.CChild.lod0FootPrint co ∈
        [CityGML.CChild.creationDate "1990-01-01",
         CityGML.CChild.externalReferenceId (some "ns1") (some "loc1"),
         CityGML.CChild.lod0FootPrint
           { attrib := [("cs", ",")], text := some "0,0 1,0 1,1" }]) :=
  ⟨(geometry_coordinates_roundtrip buMain).1 _ rfl,
   (geometry_coordinates_roundtrip buMain).2 _ rfl⟩

/-- C8 counterexample: a building without a CONDITION attribute still gets a
`bu-base:conditionOfConstruction` child element (with no attribute content) in
its successfully translated output, so the condition item is not "emitted only
when its named source attribute is present". -/
theorem condition_element_emitted_when_absent :
    buMain.find "CONDITION" = none ∧
      Inspire.translateBuilding buMain = Except.ok
        [Inspire.IChild.beginLifespanVersion "1990-01-01T00:00:00",
         Inspire.IChild.conditionOfConstruction none,
         Inspire.IChild.inspireId (some "loc1") (some "ns1"),
         Inspire.IChild.geometry2D
           { attrib := [("cs", ",")], text := some "0,0 1,0 1,1" } "false" "!" "0"] :=
  ⟨rfl, rfl⟩

/-- C8 amended: in a successfully translated INSPIRE building, the
condition-of-construction element is always present and carries its code-list
reference attribute exactly when CONDITION is present; every other output item
is either mandatory (lifespan begin, identifier, geometry) or accompanied by
the presence of its named source attribute. -/
theorem inspire_conditional_emission (bu : Building)
    (out : List Inspire.IChild)
    (h : Inspire.translateBuilding bu = Except.ok out) :
    (∃ href, Inspire.IChild.conditionOfConstruction href ∈ out ∧
      (href.isSome ↔ (bu.find "CONDITION").isSome)) ∧
    (∀ y ∈ out,
      (∃ t, y = Inspire.IChild.beginLifespanVersion t) ∨
      (∃ href, y = Inspire.IChild.conditionOfConstruction href) ∨
      ((∃ b e, y = Inspire.IChild.dateOfConstruction b e) ∧
        (bu.find "DATE_C_BEGINNING").isSome) ∨
      ((∃ b e, y = Inspire.IChild.dateOfRenovation b e) ∧
        (bu.find "DATE_R_BEGINNING").isSome) ∨
      ((∃ i n r, y = Inspire.IChild.externalReference i n r) ∧
        (bu.find "EXT_REF_REFERENCE").isSome) ∨
      ((∃ r s u v, y = Inspire.IChild.heightAboveGround r s u v) ∧
        (bu.find "HEIGHT_HEIGHT_VAL").isSome) ∨
      (∃ a b, y = Inspire.IChild.inspireId a b) ∨
      ((∃ href, y = Inspire.IChild.buildingNature href) ∧
        (bu.find "BUILDINGTYPE").isSome) ∨
      ((∃ href p, y = Inspire.IChild.currentUse href p) ∧
        (bu.find "USE_M").isSome) ∨
      ((∃ t, y = Inspire.IChild.numberOfBuildingUnits t) ∧
        (bu.find "UNITS").isSome) ∨
      ((∃ t, y = Inspire.IChild.numberOfFloorsAboveGround t) ∧
        (bu.find "FLOORS").isSome) ∨
      (∃ co, y = Inspire.IChild.geometry2D co "false" "!" "0")) := by
  unfold Inspire.translateBuilding at h
  constructor
  · obtain ⟨l, hl, hsub⟩ := catE_mem h (Inspire.conditionBlock bu) (by simp)
    obtain ⟨href, rfl, hiff⟩ := Inspire.conditionBlock_shape hl
    exact ⟨href, hsub (by simp), hiff⟩
  · intro y hy
    obtain ⟨x, hx, l, hl, hyl⟩ := catE_forall_mem h y hy
    have hne := List.ne_nil_of_mem hyl
    simp only [List.mem_cons, List.not_mem_nil, or_false] at hx
    rcases hx with rfl|rfl|rfl|rfl|rfl|rfl|rfl|rfl|rfl|rfl|rfl|rfl
    · exact Or.inl (Inspire.lifespanBlock_shape hl y hyl)
    · obtain ⟨href, rfl, -⟩ := Inspire.conditionBlock_shape hl
      exact Or.inr (Or.inl ⟨href, by simpa using hyl⟩)
    · exact Or.inr (Or.inr (Or.inl
        ⟨(Inspire.dateCBlock_shape hl).1 y hyl, (Inspire.dateCBlock_shape hl).2 hne⟩))
    · exact Or.inr (Or.inr (Or.inr (Or.inl
        ⟨(Inspire.dateRBlock_shape hl).1 y hyl, (Inspire.dateRBlock_shape hl).2 hne⟩)))
    · exact Or.inr (Or.inr (Or.inr (Or.inr (Or.inl
        ⟨(Inspire.extRefBlock_shape hl).1 y hyl, (Inspire.extRefBlock_shape hl).2 hne⟩))))
    · exact Or.inr (Or.inr (Or.inr (Or.inr (Or.inr (Or.inl
        ⟨(Inspire.heightBlock_shape hl).1 y hyl, (Inspire.heightBlock_shape hl).2 hne⟩)))))
    · exact Or.inr (Or.inr (Or.inr (Or.inr (Or.inr (Or.inr (Or.inl
        (Inspire.idBlock_shape hl y hyl)))))))
    · exact Or.inr (Or.inr (Or.inr (Or.inr (Or.inr (Or.inr (Or.inr (Or.inl
        ⟨(Inspire.natureBlock_shape hl).1 y hyl, (Inspire.natureBlock_shape hl).2 hne⟩)))))))
    · exact Or.inr (Or.inr (Or.inr (Or.inr (Or.inr (Or.inr (Or.inr (Or.inr (Or.inl
        ⟨(Inspire.currentUseBlock_shape hl).1 y hyl,
         (Inspire.currentUseBlock_shape hl).2 hne⟩))))))))
    · exact Or.inr (Or.inr (Or.inr (Or.inr (Or.inr (Or.inr (Or.inr (Or.inr (Or.inr (Or.inl
        ⟨(Inspire.unitsBlock_shape hl).1 y hyl, (Inspire.unitsBlock_shape hl).2 hne⟩)))))))))
    · exact Or.inr (Or.inr (Or.inr (Or.inr (Or.inr (Or.inr (Or.inr (Or.inr (Or.inr (Or.inr (Or.inl
        ⟨(Inspire.floorsBlock_shape hl).1 y hyl, (Inspire.floorsBlock_shape hl).2 hne⟩))))))))))
    · obtain ⟨co, -, rfl⟩ := Inspire.geometryBlock_shape hl
      refine Or.inr (Or.inr (Or.inr (Or.inr (Or.inr (Or.inr (Or.inr (Or.inr (Or.inr (Or.inr
        (Or.inr ⟨co, by simpa using hyl⟩))))))))))

/-- C8 amended, witnessed: the condition element of the CONDITION-less
building's output carries no reference attribute. -/
theorem inspire_conditional_emission_witness :
    ∃ href, Inspire.IChild.conditionOfConstruction href ∈
        [Inspire.IChild.beginLifespanVersion "1990-01-01T00:00:00",
         Inspire.IChild.conditionOfConstruction none,
         Inspire.IChild.inspireId (some "loc1") (some "ns1"),
         Inspire.IChild.geometry2D
           { attrib := [("cs", ",")], text := some "0,0 1,0 1,1" } "false" "!" "0"] ∧
      (href.isSome ↔ (buMain.find "CONDITION").isSome) :=
  (inspire_conditional_emission buMain _ rfl).1

/-- C6: for a building with a height value but no height reference, the
reference is resolved through the elevation-reference code-list at the default
term `"generalroof"`; the status term is resolved through its code-list, a
miss failing the mapping with a lookup failure (`KeyError`); on success the
numeric value text is carried through opaquely with unit of measure `"m"`. -/
theorem inspire_height_default_reference (bu : Building) (v statLeaf : XmlLeaf)
    (st : String)
    (hval : bu.find "HEIGHT_HEIGHT_VAL" = some v)
    (href : bu.find "HEIGHT_HEIGHT_REF" = none)
    (hstat : bu.find "HEIGHT_HEIGHT_STAT" = some statLeaf)
    (hsttext : statLeaf.text = some st) :
    ∃ refHref, Inspire.elevation_reference_dict "generalroof" = some refHref ∧
      (Inspire.height_status_dict (pyLower st) = none →
        Inspire.heightBlock bu = Except.error PyErr.keyError) ∧
      (∀ statHref, Inspire.height_status_dict (pyLower st) = some statHref →
        Inspire.heightBlock bu = Except.ok
          [Inspire.IChild.heightAboveGround refHref statHref "m" v.text]) := by
  refine ⟨_, rfl, ?_, ?_⟩
  · intro hmiss
    simp only [Inspire.heightBlock, hval, href, hstat, hsttext, pyLowerOpt,
      Inspire.elevation_reference_dict, hmiss]
  · intro statHref hsh
    simp only [Inspire.heightBlock, hval, href, hstat, hsttext, pyLowerOpt,
      Inspire.elevation_reference_dict, hsh]

/-- C6, witnessed on a building whose value is `12.5` and status is `Stimata`
(lower-cased to the code-list key `stimata`), with the reference attribute
absent. -/
theorem inspire_height_default_reference_witness :
    (∃ refHref, Inspire.elevation_reference_dict "generalroof" = some refHref ∧
      (Inspire.height_status_dict (pyLower "Stimata") = none →
        Inspire.heightBlock buHeight = Except.error PyErr.keyError) ∧
      (∀ statHref, Inspire.height_status_dict (pyLower "Stimata") = some statHref →
        Inspire.heightBlock buHeight = Except.ok
          [Inspire.IChild.heightAboveGround refHref statHref "m"
            (wLeaf "12.5").text])) ∧
    Inspire.heightBlock buHeight = Except.ok
      [Inspire.IChild.heightAboveGround
        "http://inspire.ec.europa.eu/codelist/ElevationReferenceValue/generalRoof"
        "http://inspire.ec.europa.eu/codelist/HeightStatusValue/estimated"
        "m" (some "12.5")] :=
  ⟨inspire_height_default_reference buHeight (wLeaf "12.5") (wLeaf "Stimata")
    "Stimata" rfl rfl rfl rfl, by decide⟩

/-! ### Splitting and stripping lemmas for the multi-use string -/

theorem splitChars_of_not_mem {sep : Char} {A : List Char} (h : sep ∉ A) :
    splitChars sep A = [A] := by
  induction A with
  | nil => rfl
  | cons x xs ih =>
    have hx : x ≠ sep := fun he => h (he ▸ List.mem_cons_self x xs)
    have hxs : sep ∉ xs := fun hm => h (List.mem_cons_of_mem x hm)
    simp only [splitChars, if_neg hx, ih hxs]

theorem splitChars_cons_eq (sep x : Char) (xs : List Char) :
    splitChars sep (x :: xs) =
      if x = sep then [] :: splitChars sep xs
      else
        match splitChars sep xs with
        | [] => [[x]]
        | seg :: segs => (x :: seg) :: segs := rfl

theorem splitChars_append {sep : Char} {A rest : List Char} (h : sep ∉ A) :
    splitChars sep (A ++ sep :: rest) = A :: splitChars sep rest := by
  induction A with
  | nil => simp [splitChars]
  | cons x xs ih =>
    have hx : x ≠ sep := fun he => h (he ▸ List.mem_cons_self x xs)
    have hxs : sep ∉ xs := fun hm => h (List.mem_cons_of_mem x hm)
    rw [List.cons_append, splitChars_cons_eq, if_neg hx, ih hxs]

theorem pySplit_joinWith {sep : Char} {parts : List String} (hne : parts ≠ [])
    (h : ∀ w ∈ parts, sep ∉ w.data) :
    pySplit sep (joinWith (String.mk [sep]) parts) = parts := by
  induction parts with
  | nil => exact absurd rfl hne
  | cons w ws ih =>
    cases ws with
    | nil =>
      simp only [joinWith, pySplit]
      rw [splitChars_of_not_mem (h w (by simp))]
      rfl
    | cons w2 ws2 =>
      have hdata : (w ++ String.mk [sep] ++ joinWith (String.mk [sep]) (w2 :: ws2)).data =
          w.data ++ sep :: (joinWith (String.mk [sep]) (w2 :: ws2)).data := by
        simp [String.data_append]
      simp only [joinWith, pySplit, hdata]
      rw [splitChars_append (h w (by simp))]
      have ihr := ih (by simp) (fun x hx => h x (by simp [hx]))
      simp only [pySplit] at ihr
      simp [ihr]

theorem partitionChars_cons_eq (sep x : Char) (xs : List Char) :
    partitionChars sep (x :: xs) =
      if x = sep then ([], xs)
      else ((x :: (partitionChars sep xs).1, (partitionChars sep xs).2)) := rfl

theorem partitionChars_append {sep : Char} {u rest : List Char} (h : sep ∉ u) :
    partitionChars sep (u ++ sep :: rest) = (u, rest) := by
  induction u with
  | nil => simp [partitionChars]
  | cons x xs ih =>
    have hx : x ≠ sep := fun he => h (he ▸ List.mem_cons_self x xs)
    have hxs : sep ∉ xs := fun hm => h (List.mem_cons_of_mem x hm)
    rw [List.cons_append, partitionChars_cons_eq, if_neg hx, ih hxs]

theorem dropWhile_append_of_all {p : Char → Bool} {l1 l2 : List Char}
    (h : ∀ c ∈ l1, p c = true) :
    (l1 ++ l2).dropWhile p = l2.dropWhile p := by
  induction l1 with
  | nil => rfl
  | cons x xs ih =>
    simp only [List.cons_append, List.dropWhile_cons, h x (by simp), if_pos]
    exact ih (fun c hc => h c (by simp [hc]))

theorem dropWhile_eq_self_of_all {p : Char → Bool} {l : List Char}
    (h : ∀ c ∈ l, p c = false) : l.dropWhile p = l := by
  cases l with
  | nil => rfl
  | cons x xs => simp [List.dropWhile_cons, h x (by simp)]

theorem pyStripSet_strip_suffix {set suffix p : List Char}
    (hp : p ≠ []) (hall : ∀ c ∈ p, decide (c ∈ set) = false)
    (hsuffix : ∀ c ∈ suffix, decide (c ∈ set) = true) :
    pyStripSet set (String.mk (p ++ suffix)) = String.mk p := by
  obtain ⟨c, cs, rfl⟩ := List.exists_cons_of_ne_nil hp
  have hdrop2 : (cs.reverse ++ [c]).dropWhile (fun x => decide (x ∈ set)) =
      cs.reverse ++ [c] := by
    refine dropWhile_eq_self_of_all (fun x hx => ?_)
    rcases List.mem_append.mp hx with hx2 | hx2
    · exact hall x (by simp [List.mem_reverse.mp hx2])
    · have hxc : x = c := by simpa using hx2
      subst hxc
      exact hall x (by simp)
  unfold pyStripSet dropRightWhile
  have hd : (String.mk ((c :: cs) ++ suffix)).data = c :: (cs ++ suffix) := rfl
  rw [hd, List.dropWhile_cons, hall c (by simp)]
  simp only [Bool.false_eq_true, if_false]
  rw [List.reverse_cons, List.reverse_append, List.append_assoc]
  rw [dropWhile_append_of_all (fun x hx => hsuffix x (List.mem_reverse.mp hx))]
  rw [hdrop2]
  congr 1
  simp

theorem mapME_map {f : β → Except PyErr γ} {r : α → β} {l : List α} :
    mapME f (l.map r) = mapME (fun a => f (r a)) l := by
  induction l with
  | nil => rfl
  | cons a as ih => simp only [List.map, mapME, ih]

theorem currentUseEntry_render {u pct href : String}
    (hu : Inspire.current_use_dict u = some href) (hu2 : '(' ∉ u.data)
    (hp : pct.data ≠ []) (hpchars : ∀ c ∈ pct.data, c ≠ '%' ∧ c ≠ ')') :
    Inspire.currentUseEntry (u ++ "(" ++ pct ++ "%)") =
      Except.ok (Inspire.IChild.currentUse href pct) := by
  unfold Inspire.currentUseEntry
  have hdata : (u ++ "(" ++ pct ++ "%)").data =
      u.data ++ '(' :: (pct.data ++ ['%', ')']) := by
    simp [String.data_append]
  rw [hdata, partitionChars_append hu2]
  dsimp only
  have hstrip : pyStripSet ['%', ')'] (String.mk (pct.data ++ ['%', ')'])) =
      String.mk pct.data :=
    pyStripSet_strip_suffix hp
      (fun c hc => by
        obtain ⟨h1, h2⟩ := hpchars c hc
        simp [h1, h2])
      (fun c hc => by
        rcases List.mem_cons.mp hc with rfl | hc2
        · simp
        · simp at hc2
          simp [hc2])
  have hmk : String.mk u.data = u := rfl
  have hmk2 : String.mk pct.data = pct := rfl
  rw [hstrip, hmk, hmk2, hu]

/-- C5: when the multi-use attribute holds a comma-joined list of
`use(nn%)` entries whose use terms resolve in the current-use code-list, the
block splits on commas, splits each entry on its first `(`, strips `%)` from
the percentage token, and emits one repeated block per entry carrying the
resolved use and the percentage text. -/
theorem inspire_current_use_splitting (bu : Building) (leaf : XmlLeaf)
    (entries : List (String × String × String))
    (hne : entries ≠ [])
    (hfind : bu.find "USE_M" = some leaf)
    (htext : leaf.text = some (joinWith ","
      (entries.map (fun e => e.1 ++ "(" ++ e.2.1 ++ "%)"))))
    (hgood : ∀ e ∈ entries,
      (',' ∉ e.1.data ∧ '(' ∉ e.1.data) ∧
      (e.2.1.data ≠ [] ∧ ',' ∉ e.2.1.data ∧
        ∀ c ∈ e.2.1.data, c ≠ '%' ∧ c ≠ ')') ∧
      Inspire.current_use_dict e.1 = some e.2.2) :
    Inspire.currentUseBlock bu = Except.ok
      (entries.map (fun e => Inspire.IChild.currentUse e.2.2 e.2.1)) := by
  have hcomma : ∀ w ∈ entries.map (fun e => e.1 ++ "(" ++ e.2.1 ++ "%)"),
      ',' ∉ w.data := by
    intro w hw
    obtain ⟨e, he, rfl⟩ := List.mem_map.mp hw
    obtain ⟨⟨hc1, hc2⟩, ⟨hp1, hp2, hp3⟩, hdict⟩ := hgood e he
    have hdata : (e.1 ++ "(" ++ e.2.1 ++ "%)").data =
        e.1.data ++ '(' :: (e.2.1.data ++ ['%', ')']) := by
      simp [String.data_append]
    rw [hdata]
    intro hmem
    rcases List.mem_append.mp hmem with hm | hm
    · exact hc1 hm
    · rcases List.mem_cons.mp hm with hm2 | hm2
      · exact absurd hm2 (by decide)
      · rcases List.mem_append.mp hm2 with hm3 | hm3
        · exact hp2 hm3
        · simp at hm3
  have hsplit := @pySplit_joinWith ','
    (entries.map (fun e => e.1 ++ "(" ++ e.2.1 ++ "%)"))
    (by simpa using hne) hcomma
  have hsep : String.mk [','] = ("," : String) := rfl
  rw [hsep] at hsplit
  simp only [Inspire.currentUseBlock, hfind, htext, hsplit, mapME_map]
  exact mapME_ok_map (fun e he => by
    obtain ⟨⟨hc1, hc2⟩, ⟨hp1, hp2, hp3⟩, hdict⟩ := hgood e he
    exact currentUseEntry_render hdict hc2 hp1 hp3)

/-- C5, witnessed on the specification's test string
`residenziale(80%),negozio(20%)`: two use blocks, residential with `80` and
trade with `20`. -/
theorem inspire_current_use_splitting_witness :
    Inspire.currentUseBlock buUse = Except.ok
      [Inspire.IChild.currentUse
        "http://inspire.ec.europa.eu/codelist/CurrentUseValue/residential" "80",
       Inspire.IChild.currentUse
        "http://inspire.ec.europa.eu/codelist/CurrentUseValue/trade" "20"] :=
  inspire_current_use_splitting buUse
    (wLeaf "residenziale(80%),negozio(20%)")
    [("residenziale", "80",
      "http://inspire.ec.europa.eu/codelist/CurrentUseValue/residential"),
     ("negozio", "20",
      "http://inspire.ec.europa.eu/codelist/CurrentUseValue/trade")]
    (by simp) rfl (by decide) (by decide)

/-! ### The Python string order: a linear order matching `sorted()` -/

theorem pyLtChars_irrefl (l : List Char) : pyLtChars l l = false := by
  induction l with
  | nil => rfl
  | cons c cs ih => simp [pyLtChars, lt_irrefl, ih]

theorem pyLtChars_asymm : ∀ {a b : List Char},
    pyLtChars a b = true → pyLtChars b a = false := by
  intro a
  induction a with
  | nil =>
    intro b h
    cases b with
    | nil => cases h
    | cons d ds => rfl
  | cons c cs ih =>
    intro b h
    cases b with
    | nil => cases h
    | cons d ds =>
      simp only [pyLtChars] at h ⊢
      by_cases h1 : c < d
      · rw [if_neg (asymm h1), if_pos h1]
      · rw [if_neg h1] at h
        by_cases h2 : d < c
        · rw [if_pos h2] at h; cases h
        · rw [if_neg h2] at h
          rw [if_neg h2, if_neg h1]
          exact ih h

theorem pyLtChars_le_trans : ∀ {a b c : List Char},
    pyLtChars b a = false → pyLtChars c b = false → pyLtChars c a = false := by
  intro a
  induction a with
  | nil =>
    intro b c _ _
    cases c with
    | nil => rfl
    | cons z zs => rfl
  | cons x xs ih =>
    intro b c h1 h2
    cases b with
    | nil => cases h1
    | cons y ys =>
      cases c with
      | nil => cases h2
      | cons z zs =>
        simp only [pyLtChars] at h1 h2 ⊢
        by_cases hyx : y < x
        · rw [if_pos hyx] at h1; cases h1
        · rw [if_neg hyx] at h1
          by_cases hzy : z < y
          · rw [if_pos hzy] at h2; cases h2
          · rw [if_neg hzy] at h2
            have hxy : x ≤ y := not_lt.mp hyx
            have hyz : y ≤ z := not_lt.mp hzy
            have hzx : ¬ z < x := not_lt.mpr (le_trans hxy hyz)
            rw [if_neg hzx]
            by_cases hxy2 : x < y
            · rw [if_pos (lt_of_lt_of_le hxy2 hyz)]
            · rw [if_neg hxy2] at h1
              by_cases hyz2 : y < z
              · rw [if_pos (lt_of_le_of_lt hxy hyz2)]
              · rw [if_neg hyz2] at h2
                by_cases hxz : x < z
                · rw [if_pos hxz]
                · rw [if_neg hxz]
                  exact ih h1 h2

instance : IsTotal String pyStrLe :=
  ⟨fun s t => by
    by_cases h : pyLtChars t.data s.data = true
    · exact Or.inr (pyLtChars_asymm h)
    · exact Or.inl (by simp only [Bool.not_eq_true] at h; exact h)⟩

instance : IsTrans String pyStrLe :=
  ⟨fun _ _ _ h1 h2 => pyLtChars_le_trans h1 h2⟩

theorem pyStrLe_refl (s : String) : pyStrLe s s :=
  pyLtChars_irrefl s.data

/-! ### Decimal digit strings compare lexicographically as numbers -/

theorem charsVal_lt_pow {l : List Char} (h : ∀ c ∈ l, c.isDigit = true) :
    charsVal l < 10 ^ l.length := by
  induction l with
  | nil => simp [charsVal]
  | cons c cs ih =>
    have hc := h c (by simp)
    have hcs := ih (fun x hx => h x (by simp [hx]))
    simp [Char.isDigit] at hc
    have hcb : 48 ≤ c.toNat ∧ c.toNat ≤ 57 := ⟨hc.1, hc.2⟩
    have h9 : c.toNat - 48 ≤ 9 := by omega
    simp only [charsVal, List.length_cons, pow_succ]
    calc (c.toNat - 48) * 10 ^ cs.length + charsVal cs
        ≤ 9 * 10 ^ cs.length + charsVal cs :=
          Nat.add_le_add_right (Nat.mul_le_mul_right _ h9) _
      _ < 9 * 10 ^ cs.length + 10 ^ cs.length := Nat.add_lt_add_left hcs _
      _ = 10 ^ cs.length * 10 := by ring

theorem pyLtChars_iff_val : ∀ {s t : List Char},
    (∀ c ∈ s, c.isDigit = true) → (∀ c ∈ t, c.isDigit = true) →
    s.length = t.length →
    (pyLtChars s t = true ↔ charsVal s < charsVal t) := by
  intro s
  induction s with
  | nil =>
    intro t _ _ hlen
    cases t with
    | nil => simp [pyLtChars, charsVal]
    | cons d ds => simp at hlen
  | cons c cs ih =>
    intro t hs ht hlen
    cases t with
    | nil => simp at hlen
    | cons d ds =>
      have hlen2 : cs.length = ds.length := by simpa using hlen
      have hc := hs c (by simp)
      have hd := ht d (by simp)
      have hcs : ∀ x ∈ cs, x.isDigit = true := fun x hx => hs x (by simp [hx])
      have hds : ∀ x ∈ ds, x.isDigit = true := fun x hx => ht x (by simp [hx])
      simp [Char.isDigit] at hc hd
      have hcb : 48 ≤ c.toNat ∧ c.toNat ≤ 57 := ⟨hc.1, hc.2⟩
      have hdb : 48 ≤ d.toNat ∧ d.toNat ≤ 57 := ⟨hd.1, hd.2⟩
      have hvcs := charsVal_lt_pow hcs
      have hvds := charsVal_lt_pow hds
      simp only [pyLtChars, charsVal, hlen2]
      by_cases h1 : c < d
      · rw [if_pos h1]
        have hlt : c.toNat < d.toNat := h1
        have hstep : c.toNat - 48 + 1 ≤ d.toNat - 48 := by omega
        simp only [true_iff]
        calc (c.toNat - 48) * 10 ^ ds.length + charsVal cs
            < (c.toNat - 48) * 10 ^ ds.length + 10 ^ ds.length := by
              rw [hlen2] at hvcs
              exact Nat.add_lt_add_left hvcs _
          _ = (c.toNat - 48 + 1) * 10 ^ ds.length := by ring
          _ ≤ (d.toNat - 48) * 10 ^ ds.length := Nat.mul_le_mul_right _ hstep
          _ ≤ (d.toNat - 48) * 10 ^ ds.length + charsVal ds := Nat.le_add_right _ _
      · rw [if_neg h1]
        by_cases h2 : d < c
        · rw [if_pos h2]
          have hlt : d.toNat < c.toNat := h2
          have hstep : d.toNat - 48 + 1 ≤ c.toNat - 48 := by omega
          have hflip : (d.toNat - 48) * 10 ^ ds.length + charsVal ds <
              (c.toNat - 48) * 10 ^ ds.length + charsVal cs := by
            calc (d.toNat - 48) * 10 ^ ds.length + charsVal ds
                < (d.toNat - 48) * 10 ^ ds.length + 10 ^ ds.length :=
                  Nat.add_lt_add_left hvds _
              _ = (d.toNat - 48 + 1) * 10 ^ ds.length := by ring
              _ ≤ (c.toNat - 48) * 10 ^ ds.length := Nat.mul_le_mul_right _ hstep
              _ ≤ (c.toNat - 48) * 10 ^ ds.length + charsVal cs := Nat.le_add_right _ _
          simp only [Bool.false_eq_true, false_iff, not_lt]
          omega
        · have hcd : c = d := le_antisymm (not_lt.mp h2) (not_lt.mp h1)
          subst hcd
          rw [if_neg h2, ih hcs hds hlen2]
          omega

theorem pyStrLe_iff_val {s t : String}
    (hs : ∀ c ∈ s.data, c.isDigit = true) (ht : ∀ c ∈ t.data, c.isDigit = true)
    (hlen : s.data.length = t.data.length) :
    pyStrLe s t ↔ charsValStr s ≤ charsValStr t := by
  unfold pyStrLe charsValStr
  rw [← Bool.not_eq_true, not_iff_comm, pyLtChars_iff_val ht hs hlen.symm]
  omega

theorem pyInt_digits {s : String} (hne : s.data ≠ [])
    (h : ∀ c ∈ s.data, c.isDigit = true) :
    pyInt s = Except.ok ((charsValStr s : Int)) := by
  unfold pyInt
  split
  · rename_i heq; exact absurd heq hne
  · rename_i rest heq
    have : ('-' : Char).isDigit = true := h '-' (by rw [heq]; simp)
    cases this
  · rename_i l h1 h2
    rw [if_pos (List.all_eq_true.mpr (fun c hc => h c hc))]
    rfl

/-! ### Extremal elements of the sorted year list -/

theorem sorted_head_le {l : List String} (hs : List.Sorted pyStrLe l)
    {b : String} (hb : l.head? = some b) : ∀ a ∈ l, pyStrLe b a := by
  cases l with
  | nil => cases hb
  | cons x xs =>
    have hxb : x = b := by simpa using hb
    subst hxb
    intro a ha
    rcases List.mem_cons.mp ha with rfl | ha2
    · exact pyStrLe_refl a
    · exact List.rel_of_sorted_cons hs a ha2

theorem sorted_le_getLast : ∀ {l : List String}, List.Sorted pyStrLe l →
    ∀ {z : String}, l.getLast? = some z → ∀ a ∈ l, pyStrLe a z := by
  intro l
  induction l with
  | nil => intro _ z hz; cases hz
  | cons b bs ih =>
    intro hs z hz a ha
    cases bs with
    | nil =>
      have hbz : b = z := by simpa using hz
      have hab : a = b := by simpa using ha
      subst hbz
      subst hab
      exact pyStrLe_refl a
    | cons b2 bs2 =>
      rw [List.getLast?_cons_cons] at hz
      rcases List.mem_cons.mp ha with rfl | ha2
      · exact List.rel_of_sorted_cons hs z (List.mem_of_mem_getLast? hz)
      · exact ih hs.of_cons hz a ha2

/-! ### The year → value dictionary built by `zip` -/

theorem assocLast_eq_none {β : Type} {l : List (String × β)} {k : String}
    (h : k ∉ l.map Prod.fst) : assocLast l k = none := by
  induction l with
  | nil => rfl
  | cons p rest ih =>
    have h1 : k ∉ rest.map Prod.fst := fun hm => h (by simp [hm])
    have h2 : p.1 ≠ k := fun he => h (by simp [he])
    simp only [assocLast, ih h1, if_neg h2]

theorem assocLast_cons_eq {β : Type} (p : String × β) (rest : List (String × β))
    (k : String) :
    assocLast (p :: rest) k =
      match assocLast rest k with
      | some v => some v
      | none => if p.1 = k then some p.2 else none := rfl

theorem assocLast_zip_nodup {β : Type} : ∀ {ks : List String} {bs : List β},
    ks.Nodup → ∀ {p : String × β}, p ∈ ks.zip bs →
      assocLast (ks.zip bs) p.1 = some p.2 := by
  intro ks
  induction ks with
  | nil => intro bs _ p hp; cases hp
  | cons k ks2 ih =>
    intro bs hnd p hp
    cases bs with
    | nil => cases hp
    | cons b bs2 =>
      simp only [List.zip_cons_cons] at hp
      rcases List.mem_cons.mp hp with rfl | hp2
      · have hk : k ∉ ks2 := (List.nodup_cons.mp hnd).1
        have hkeys : k ∉ (ks2.zip bs2).map Prod.fst := by
          intro hm
          obtain ⟨q, hq, hq1⟩ := List.mem_map.mp hm
          exact hk (hq1 ▸ (List.of_mem_zip hq).1)
        rw [show (k :: ks2).zip (b :: bs2) = (k, b) :: ks2.zip bs2 from rfl,
          assocLast_cons_eq, assocLast_eq_none hkeys]
        simp
      · have hrec := ih (List.nodup_cons.mp hnd).2 hp2
        rw [show (k :: ks2).zip (b :: bs2) = (k, b) :: ks2.zip bs2 from rfl,
          assocLast_cons_eq, hrec]

theorem assocLast_map_some {β : Type} {l : List (String × β)} {k : String} :
    assocLast (l.map (fun q => (q.1, some q.2))) k = (assocLast l k).map some := by
  induction l with
  | nil => rfl
  | cons p rest ih =>
    simp only [List.map, assocLast, ih]
    cases assocLast rest k with
    | none =>
      by_cases h : p.1 = k <;> simp [h]
    | some v => simp

/-! ### Joining and stripping the space-separated values text -/

theorem pyJoin_data : ∀ {ws : List String}, ws ≠ [] →
    (pyJoin (ws.map (fun v => v ++ " "))).data =
      (joinWith " " ws).data ++ [' '] := by
  intro ws
  induction ws with
  | nil => intro h; exact absurd rfl h
  | cons w ws2 ih =>
    intro _
    cases ws2 with
    | nil => simp [pyJoin, joinWith, String.data_append]
    | cons w2 ws3 =>
      have ih2 := ih (by simp)
      have e1 : pyJoin ((w :: w2 :: ws3).map (fun v => v ++ " ")) =
          (w ++ " ") ++ pyJoin ((w2 :: ws3).map (fun v => v ++ " ")) := rfl
      have e2 : joinWith " " (w :: w2 :: ws3) =
          w ++ " " ++ joinWith " " (w2 :: ws3) := rfl
      rw [e1, e2, String.data_append, ih2, String.data_append, String.data_append]
      simp [List.append_assoc]

theorem joinWith_space_data_ne : ∀ {ws : List String}, ws ≠ [] →
    (∀ w ∈ ws, w.data ≠ []) → (joinWith " " ws).data ≠ [] := by
  intro ws
  induction ws with
  | nil => intro h; exact absurd rfl h
  | cons w ws2 _
  =>
    intro _ hws
    cases ws2 with
    | nil => exact hws w (by simp)
    | cons w2 ws3 =>
      show ((w ++ " " ++ joinWith " " (w2 :: ws3))).data ≠ []
      rw [String.data_append, String.data_append]
      simp only [ne_eq, List.append_eq_nil]
      intro ⟨⟨h1, _⟩, _⟩
      exact hws w (by simp) h1

theorem joinWith_space_head? {w : String} {ws : List String}
    (hw : w.data ≠ []) :
    ((joinWith " " (w :: ws)).data).head? = w.data.head? := by
  cases ws with
  | nil => rfl
  | cons w2 ws2 =>
    show ((w ++ " " ++ joinWith " " (w2 :: ws2))).data.head? = _
    rw [String.data_append, String.data_append, List.append_assoc]
    exact List.head?_append_of_ne_nil _ hw

theorem joinWith_space_getLast?_no_ws : ∀ {ws : List String}, ws ≠ [] →
    (∀ w ∈ ws, w.data ≠ [] ∧ ∀ c ∈ w.data, isPyWs c = false) →
    ∀ c, ((joinWith " " ws).data).getLast? = some c → isPyWs c = false := by
  intro ws
  induction ws with
  | nil => intro h; exact absurd rfl h
  | cons w ws2 ih =>
    intro _ hws c hc
    cases ws2 with
    | nil => exact (hws w (by simp)).2 c (List.mem_of_mem_getLast? hc)
    | cons w2 ws3 =>
      have hJ2ne : (joinWith " " (w2 :: ws3)).data ≠ [] :=
        joinWith_space_data_ne (by simp) (fun x hx => (hws x (by simp [hx])).1)
      rw [show joinWith " " (w :: w2 :: ws3) =
        w ++ " " ++ joinWith " " (w2 :: ws3) from rfl] at hc
      rw [String.data_append, List.getLast?_append] at hc
      cases hgl : (joinWith " " (w2 :: ws3)).data.getLast? with
      | none =>
        have := List.getLast?_isSome.mpr hJ2ne
        rw [hgl] at this
        cases this
      | some d =>
        rw [hgl] at hc
        have hdc : d = c := by simpa using hc
        subst hdc
        exact ih (by simp) (fun x hx => hws x (by simp [hx])) d hgl

theorem dropRightWhile_append_true {p : Char → Bool} {c : Char}
    {l : List Char} (hc : p c = true) :
    dropRightWhile p (l ++ [c]) = dropRightWhile p l := by
  unfold dropRightWhile
  rw [List.reverse_append]
  simp [List.dropWhile_cons, hc]

theorem dropRightWhile_eq_self {p : Char → Bool} {l : List Char}
    (h : ∀ c, l.getLast? = some c → p c = false) : dropRightWhile p l = l := by
  unfold dropRightWhile
  cases hrev : l.reverse with
  | nil =>
    have : l = [] := by simpa using congrArg List.reverse hrev
    simp [this]
  | cons c cs =>
    have hlast : l.getLast? = some c := by
      rw [← List.head?_reverse, hrev]; rfl
    rw [List.dropWhile_cons, h c hlast]
    simp only [Bool.false_eq_true, if_false]
    rw [← hrev, List.reverse_reverse]

theorem strip_join_eq {ws : List String} (hne : ws ≠ [])
    (hws : ∀ w ∈ ws, w.data ≠ [] ∧ ∀ c ∈ w.data, isPyWs c = false) :
    pyStripWs (pyJoin (ws.map (fun v => v ++ " "))) = joinWith " " ws := by
  obtain ⟨w, ws2, rfl⟩ := List.exists_cons_of_ne_nil hne
  have hwne := (hws w (by simp)).1
  unfold pyStripWs
  rw [pyJoin_data hne]
  obtain ⟨c, cs, hcw⟩ := List.exists_cons_of_ne_nil hwne
  have hhead : ((joinWith " " (w :: ws2)).data).head? = some c := by
    rw [joinWith_space_head? hwne, hcw]; rfl
  obtain ⟨J, hJ⟩ : ∃ J, (joinWith " " (w :: ws2)).data = c :: J := by
    cases hd : (joinWith " " (w :: ws2)).data with
    | nil => rw [hd] at hhead; cases hhead
    | cons c0 J =>
      rw [hd] at hhead
      have : c0 = c := by simpa using hhead
      exact ⟨J, by rw [this]⟩
  have hcno : isPyWs c = false :=
    (hws w (by simp)).2 c (by rw [hcw]; simp)
  rw [hJ, List.cons_append, List.dropWhile_cons, hcno]
  simp only [Bool.false_eq_true, if_false]
  rw [← List.cons_append, ← hJ]
  rw [dropRightWhile_append_true (by rfl)]
  rw [dropRightWhile_eq_self (joinWith_space_getLast?_no_ws hne hws)]

theorem isPyWs_eq_false_of_isDigit {c : Char} (h : c.isDigit = true) :
    isPyWs c = false := by
  simp only [isPyWs, Bool.or_eq_false_iff, beq_eq_false_iff_ne, ne_eq]
  refine ⟨⟨⟨?_, ?_⟩, ?_⟩, ?_⟩ <;> (rintro rfl; exact absurd h (by decide))

/-- C4: the energy-demand time-series construction, for any non-empty list of
equal-width decimal year strings (pairwise distinct, as they come from
per-year records) with one numeric value per year: when the year count
differs from last − first + 1 it fails with `NonContiguousYears`; when the
years are contiguous it emits the extent [min year, max year] and the values
sorted by year ascending, joined by single spaces. -/
theorem citygml_demand_contiguity (ys vs : List String) (uom ct : String)
    (hne : ys ≠ [])
    (hy : ∀ y ∈ ys, y.data ≠ [] ∧ ∀ c ∈ y.data, c.isDigit = true)
    (hylen : ∀ y ∈ ys, ∀ z ∈ ys, y.data.length = z.data.length)
    (hnd : ys.Nodup)
    (hvlen : vs.length = ys.length)
    (hv : ∀ v ∈ vs, v.data ≠ [] ∧ ∀ c ∈ v.data, c.isDigit = true) :
    ∃ ymin, ymin ∈ ys ∧ ∃ ymax, ymax ∈ ys ∧
      (∀ y ∈ ys, charsValStr ymin ≤ charsValStr y ∧
        charsValStr y ≤ charsValStr ymax) ∧
      (ys.length ≠ charsValStr ymax - charsValStr ymin + 1 →
        CityGML.demandSeries (ys.map some) (vs.map some) uom ct =
          Except.error PyErr.nonContiguousYears) ∧
      (ys.length = charsValStr ymax - charsValStr ymin + 1 →
        CityGML.demandSeries (ys.map some) (vs.map some) uom ct = Except.ok
          { acquisitionMethod := "measurement",
            interpolationType := "instantaneousTotal",
            beginPos := ymin, endPos := ymax,
            timeIntervalUnit := "year", timeInterval := toString ys.length,
            uom := uom,
            valuesText := joinWith " "
              (((ys.zip vs).insertionSort yearLe).map Prod.snd),
            endUse := "otherOrCombination", energyCarrierType := ct }) := by
  have hperm : List.Perm (List.insertionSort pyStrLe ys) ys :=
    List.perm_insertionSort _ _
  have hSs : List.Sorted pyStrLe (List.insertionSort pyStrLe ys) :=
    List.sorted_insertionSort _ _
  have hSne : List.insertionSort pyStrLe ys ≠ [] := by
    intro h0
    have hle := hperm.length_eq
    rw [h0] at hle
    exact hne (List.length_eq_zero.mp hle.symm)
  obtain ⟨b, T, hS⟩ := List.exists_cons_of_ne_nil hSne
  have hhead : (List.insertionSort pyStrLe ys).head? = some b := by rw [hS]; rfl
  obtain ⟨e, hlast⟩ : ∃ e, (List.insertionSort pyStrLe ys).getLast? = some e :=
    Option.isSome_iff_exists.mp (List.getLast?_isSome.mpr hSne)
  have hbmem : b ∈ ys := hperm.subset (by rw [hS]; simp)
  have hemem : e ∈ ys := hperm.subset (List.mem_of_mem_getLast? hlast)
  have hminS := sorted_head_le hSs hhead
  have hmaxS := sorted_le_getLast hSs hlast
  have hminmax : ∀ y ∈ ys, charsValStr b ≤ charsValStr y ∧
      charsValStr y ≤ charsValStr e := by
    intro y hyy
    have hySmem : y ∈ List.insertionSort pyStrLe ys := hperm.mem_iff.mpr hyy
    constructor
    · exact (pyStrLe_iff_val (hy b hbmem).2 (hy y hyy).2
        (hylen b hbmem y hyy)).mp (hminS y hySmem)
    · exact (pyStrLe_iff_val (hy y hyy).2 (hy e hemem).2
        (hylen y hyy e hemem)).mp (hmaxS y hySmem)
  have hbe : charsValStr b ≤ charsValStr e := (hminmax b hbmem).2
  have hlift : mapME (ofOpt PyErr.typeError) (ys.map some) = Except.ok ys := by
    rw [mapME_map]
    have h0 := mapME_ok_map (f := fun a => ofOpt PyErr.typeError (some a))
      (g := fun a => a) (l := ys) (fun a _ => rfl)
    simpa using h0
  have hIntE : pyInt e = Except.ok ((charsValStr e : Int)) :=
    pyInt_digits (hy e hemem).1 (hy e hemem).2
  have hIntB : pyInt b = Except.ok ((charsValStr b : Int)) :=
    pyInt_digits (hy b hbmem).1 (hy b hbmem).2
  have hrender : mapME (fun y =>
      match assocLast (ys.zip (vs.map some)) y with
      | some v => Except.ok (pyStr v)
      | none => Except.error PyErr.keyError) (List.insertionSort pyStrLe ys) =
      Except.ok (((ys.zip vs).insertionSort yearLe).map Prod.snd) := by
    have hys_eq : (ys.zip vs).map Prod.fst = ys :=
      List.map_fst_zip ys vs (by omega)
    have hmapsort : ((ys.zip vs).insertionSort pairLeStr).map Prod.fst =
        List.insertionSort pyStrLe ys := by
      rw [List.map_insertionSort pairLeStr pyStrLe Prod.fst _
        (fun a _ b _ => Iff.rfl), hys_eq]
    have hPP : (ys.zip vs).insertionSort pairLeStr =
        (ys.zip vs).insertionSort yearLe := by
      have h0 := List.map_insertionSort pairLeStr yearLe id (ys.zip vs)
        (fun a ha b hb => by
          have ha1 : a.1 ∈ ys := (List.of_mem_zip ha).1
          have hb1 : b.1 ∈ ys := (List.of_mem_zip hb).1
          exact pyStrLe_iff_val (hy a.1 ha1).2 (hy b.1 hb1).2
            (hylen a.1 ha1 b.1 hb1))
      simpa using h0
    rw [← hmapsort, mapME_map, ← hPP]
    refine mapME_ok_map (fun p hp => ?_)
    have hzmem : p ∈ ys.zip vs := (List.perm_insertionSort _ _).subset hp
    have hlook : assocLast (ys.zip (vs.map some)) p.1 = some (some p.2) := by
      rw [List.zip_map_right]
      rw [show List.map (Prod.map id some) (ys.zip vs) =
        (ys.zip vs).map (fun q => (q.1, some q.2)) from rfl]
      rw [assocLast_map_some, assocLast_zip_nodup hnd hzmem]
      rfl
    rw [hlook]
    rfl
  have hPne : ((ys.zip vs).insertionSort yearLe).map Prod.snd ≠ [] := by
    intro h0
    have hlen0 := congrArg List.length h0
    simp only [List.length_map, List.length_insertionSort, List.length_zip,
      List.length_nil] at hlen0
    have : ys.length = 0 := by omega
    exact hne (List.length_eq_zero.mp this)
  have hPws : ∀ w ∈ ((ys.zip vs).insertionSort yearLe).map Prod.snd,
      w.data ≠ [] ∧ ∀ c ∈ w.data, isPyWs c = false := by
    intro w hw
    obtain ⟨p, hp, rfl⟩ := List.mem_map.mp hw
    have hzmem : p ∈ ys.zip vs := (List.perm_insertionSort _ _).subset hp
    have hv2 := hv p.2 (List.of_mem_zip hzmem).2
    exact ⟨hv2.1, fun c hc => isPyWs_eq_false_of_isDigit (hv2.2 c hc)⟩
  refine ⟨b, hbmem, e, hemem, hminmax, ?_, ?_⟩
  · intro hcond
    simp only [CityGML.demandSeries, hlift, pySorted, hhead, hlast, hIntE, hIntB]
    rw [if_pos (by omega)]
  · intro hcond
    simp only [CityGML.demandSeries, hlift, pySorted, hhead, hlast, hIntE, hIntB]
    rw [if_neg (by omega), hrender]
    dsimp only
    rw [strip_join_eq hPne hPws]

/-- C4, witnessed on the specification's test vectors: years 2015..2017 with
values 10, 12, 11 yield values text `"10 12 11"` and extent [2015, 2017];
years 2015 and 2017 (gap at 2016) fail with `NonContiguousYears`. -/
theorem citygml_demand_contiguity_witness :
    (∃ ymin, ymin ∈ ["2015", "2016", "2017"] ∧
      ∃ ymax, ymax ∈ ["2015", "2016", "2017"] ∧
      (∀ y ∈ ["2015", "2016", "2017"], charsValStr ymin ≤ charsValStr y ∧
        charsValStr y ≤ charsValStr ymax) ∧
      ((["2015", "2016", "2017"] : List String).length ≠
          charsValStr ymax - charsValStr ymin + 1 →
        CityGML.demandSeries (["2015", "2016", "2017"].map some)
          (["10", "12", "11"].map some) "kwh" "Electricity" =
          Except.error PyErr.nonContiguousYears) ∧
      ((["2015", "2016", "2017"] : List String).length =
          charsValStr ymax - charsValStr ymin + 1 →
        CityGML.demandSeries (["2015", "2016", "2017"].map some)
          (["10", "12", "11"].map some) "kwh" "Electricity" = Except.ok
          { acquisitionMethod := "measurement",
            interpolationType := "instantaneousTotal",
            beginPos := ymin, endPos := ymax,
            timeIntervalUnit := "year",
            timeInterval := toString (["2015", "2016", "2017"] : List String).length,
            uom := "kwh",
            valuesText := joinWith " "
              (((["2015", "2016", "2017"].zip
                  ["10", "12", "11"]).insertionSort yearLe).map Prod.snd),
            endUse := "otherOrCombination", energyCarrierType := "Electricity" })) ∧
    CityGML.demandSeries (["2015", "2016", "2017"].map some)
        (["10", "12", "11"].map some) "kwh" "Electricity" = Except.ok
      { acquisitionMethod := "measurement",
        interpolationType := "instantaneousTotal",
        beginPos := "2015", endPos := "2017",
        timeIntervalUnit := "year", timeInterval := "3", uom := "kwh",
        valuesText := "10 12 11", endUse := "otherOrCombination",
        energyCarrierType := "Electricity" } ∧
    CityGML.demandSeries (["2015", "2017"].map some) (["10", "11"].map some)
        "kwh" "Electricity" = Except.error PyErr.nonContiguousYears :=
  ⟨citygml_demand_contiguity ["2015", "2016", "2017"] ["10", "12", "11"]
      "kwh" "Electricity" (by decide) (by decide) (by decide) (by decide)
      (by decide) (by decide),
   by decide, by decide⟩
